import Mathlib

/-!
A verification development for the gigacad agentic CAD loop.

The definitions below are a shallow embedding of `src/ai_agent.py`
(`CADAgent`: the tool catalog, planner-response parsing, step validation,
dispatch and the agentic workflow loop) and `src/onpy_client.py`
(`OnPyClient`: the session registry and the sketch-geometry operations).
Python dictionaries become association lists, Python exceptions become
`Except String`, machine floats become `Rat`, and calls into the external
OnPy library become entries of an explicit call trace.  Definitions follow
the Python line by line; deviations are noted in doc comments.
-/

/-- A Python runtime value as produced by `json.loads` and passed around as
tool arguments: `None`, booleans, numbers, strings, lists and dicts. -/
inductive PyVal where
  | vNone : PyVal
  | vBool : Bool → PyVal
  | vNum : Rat → PyVal
  | vStr : String → PyVal
  | vList : List PyVal → PyVal
  | vDict : List (String × PyVal) → PyVal

/-- A declared JSON-schema type from the tool catalog of `CADAgent.__init__`
(`"string"`, `"number"`, `"boolean"`, `"array"` with an item type). -/
inductive JType where
  | jstring : JType
  | jnumber : JType
  | jboolean : JType
  | jarray : JType → JType

/-- One parameter of a tool schema: its name, declared type and whether the
tool lists it in `required`. -/
structure ParamSpec where
  pname : String
  ptype : JType
  required : Bool

/-- One entry of the tool catalog `self.tools`: name plus parameter schema. -/
structure ToolSpec where
  tname : String
  params : List ParamSpec

/-- The fixed tool catalog defined in `CADAgent.__init__` (`self.tools`),
transcribed tool by tool: names, parameter names, declared types and
`required` lists.  (Descriptions, enums and defaults carry no weight in
validation and are omitted.) -/
def tools : List ToolSpec :=
  [ ⟨"create_document",
      [⟨"name", .jstring, true⟩, ⟨"description", .jstring, false⟩]⟩,
    ⟨"select_document",
      [⟨"document_id", .jstring, true⟩]⟩,
    ⟨"create_part_studio",
      [⟨"name", .jstring, true⟩]⟩,
    ⟨"create_sketch",
      [⟨"plane", .jstring, true⟩, ⟨"name", .jstring, true⟩]⟩,
    ⟨"add_circle_to_sketch",
      [⟨"sketch_name", .jstring, true⟩, ⟨"center", .jarray .jnumber, true⟩,
       ⟨"radius", .jnumber, true⟩]⟩,
    ⟨"add_rectangle_to_sketch",
      [⟨"sketch_name", .jstring, true⟩, ⟨"corner_1", .jarray .jnumber, true⟩,
       ⟨"corner_2", .jarray .jnumber, true⟩]⟩,
    ⟨"add_line_to_sketch",
      [⟨"sketch_name", .jstring, true⟩, ⟨"start_point", .jarray .jnumber, true⟩,
       ⟨"end_point", .jarray .jnumber, true⟩]⟩,
    ⟨"add_arc_to_sketch",
      [⟨"sketch_name", .jstring, true⟩, ⟨"centerpoint", .jarray .jnumber, true⟩,
       ⟨"radius", .jnumber, true⟩, ⟨"start_angle", .jnumber, true⟩,
       ⟨"end_angle", .jnumber, true⟩]⟩,
    ⟨"trace_points_in_sketch",
      [⟨"sketch_name", .jstring, true⟩, ⟨"points", .jarray (.jarray .jnumber), true⟩,
       ⟨"end_connect", .jboolean, false⟩]⟩,
    ⟨"extrude_sketch",
      [⟨"sketch_name", .jstring, true⟩, ⟨"endBoundOffset", .jnumber, true⟩,
       ⟨"operation", .jstring, false⟩]⟩,
    ⟨"revolve_sketch",
      [⟨"sketch_id", .jstring, true⟩, ⟨"axis", .jarray .jnumber, true⟩,
       ⟨"axisPoint", .jarray .jnumber, false⟩, ⟨"angle", .jnumber, true⟩]⟩,
    ⟨"get_features", []⟩,
    ⟨"get_planes", []⟩,
    ⟨"delete_feature",
      [⟨"feature_id", .jstring, true⟩]⟩,
    ⟨"create_fillet",
      [⟨"edge_queries", .jarray .jstring, true⟩, ⟨"radius", .jnumber, true⟩]⟩,
    ⟨"create_chamfer",
      [⟨"edge_queries", .jarray .jstring, true⟩, ⟨"distance", .jnumber, true⟩]⟩ ]

/-- `available_tool_names = [tool["function"]["name"] for tool in self.tools]`
as computed in `_execute_planned_step` (and `_plan_next_step`). -/
def availableToolNames : List String := tools.map (·.tname)

/-- Does a runtime value match a declared schema type?  Numbers must be bare
numeric values: a string such as `"25mm"` does not match `jnumber`. -/
def typeMatches : PyVal → JType → Bool
  | .vStr _, .jstring => true
  | .vNum _, .jnumber => true
  | .vBool _, .jboolean => true
  | .vList xs, .jarray t => listTypeMatches xs t
  | _, _ => false
where
  /-- Every element of the list matches the item type. -/
  listTypeMatches : List PyVal → JType → Bool
  | [], _ => true
  | x :: xs, t => typeMatches x t && listTypeMatches xs t

/-- Modelled from the spec: `ToolSpec`-conformance of an argument set
(§4.1 Tool Registry validation): every required parameter is present, and
every supplied argument is a declared parameter whose runtime type matches
the declared type.  This is the property the spec claims validation checks;
it is used to compare the spec with the code's validation. -/
def conforms (spec : ToolSpec) (args : List (String × PyVal)) : Bool :=
  spec.params.all (fun p => !p.required || (args.lookup p.pname).isSome) &&
  args.all (fun a =>
    spec.params.any (fun p => p.pname = a.1 && typeMatches a.2 p.ptype))

/-- Modelled from the spec: conformance against the catalog — some tool of
the catalog has this name, and the arguments conform to its schema. -/
def conformsCatalog (toolName : String) (args : List (String × PyVal)) : Bool :=
  tools.any (fun spec => spec.tname = toolName && conforms spec args)

/-- The `{"success": ..., "output": ...}` dict returned by
`_execute_planned_step`. -/
structure StepResult where
  success : Bool
  output : String
  deriving DecidableEq

/-- The planner's parsed decision dict (a `StepPlan`).  Fields are optional
because the Python code reads them with `plan.get(...)`; a missing key (or a
key bound to a non-string value, which compares unequal to every string)
is `none`.  `tool_args` defaults to the empty dict as in
`plan.get("tool_args", {})`. -/
structure PlanObj where
  action : Option String
  toolName : Option String
  toolArgs : List (String × PyVal)
  message : Option String
  description : Option String

/-- `plan.get("tool_name")` rendered into the f-string of the tool-not-found
message: Python renders the missing value as `None`. -/
def toolNameStr (p : PlanObj) : String := p.toolName.getD "None"

/-- The check `if tool_name not in available_tool_names` in
`_execute_planned_step` — the only validation the code performs on a
planner decision before dispatching it. -/
def toolNameKnown (p : PlanObj) : Bool :=
  availableToolNames.contains (toolNameStr p)

/-- The opening-brace character, written by code point. -/
def openBraceChar : Char := '\x7b'

/-- The closing-brace character, written by code point. -/
def closeBraceChar : Char := '\x7d'

/-- Index of the last occurrence of `c` in a list, if any. -/
def lastIndexOf? (c : Char) : List Char → Option Nat
  | [] => none
  | a :: as =>
    match lastIndexOf? c as with
    | some j => some (j + 1)
    | none => if a = c then some 0 else none

/-- The substring matched by `re.search(r'\x7b.*\x7d', response, re.DOTALL)`
in `_plan_next_step`, modelled operationally like the regex engine: try each
start position from the left; at an opening brace, the greedy `.*` extends
the match to the **last** closing brace of the remaining text; a start with
no closing brace after it is skipped. -/
def braceSpan : List Char → Option (List Char)
  | [] => none
  | c :: cs =>
    if c = openBraceChar then
      match lastIndexOf? closeBraceChar cs with
      | some j => some (c :: cs.take (j + 1))
      | none => braceSpan cs
    else braceSpan cs

/-- `json_match.group()` of the brace regex, on strings. -/
def extractJsonStr (s : String) : Option String :=
  (braceSpan s.toList).map fun t => String.mk t

/-- Helper for `firstBalanced`: scan at depth `d` accumulating the object
text until the matching closing brace. -/
def scanBalanced : Nat → List Char → List Char → Option (List Char)
  | _, _, [] => none
  | d, acc, c :: rest =>
    if c = openBraceChar then scanBalanced (d + 1) (acc ++ [c]) rest
    else if c = closeBraceChar then
      if d = 1 then some (acc ++ [c]) else scanBalanced (d - 1) (acc ++ [c]) rest
    else scanBalanced d (acc ++ [c]) rest

/-- Modelled from the spec: the **first balanced JSON object** of the text,
located by a non-greedy matching-brace scan (§4.3 Planner).  This is the
behaviour the spec claims for the planner; the code instead computes
`braceSpan`. -/
def firstBalanced : List Char → Option (List Char)
  | [] => none
  | c :: rest =>
    if c = openBraceChar then scanBalanced 1 [c] rest else firstBalanced rest

/-- `firstBalanced` on strings. -/
def firstBalancedStr (s : String) : Option String :=
  (firstBalanced s.toList).map String.mk

/-- JSON whitespace as accepted by Python `json.loads`. -/
def isJsonWs (c : Char) : Bool := c = ' ' || c = '\t' || c = '\n' || c = '\r'

/-- Drop leading JSON whitespace. -/
def skipWs : List Char → List Char
  | [] => []
  | c :: cs => if isJsonWs c then skipWs cs else c :: cs

/-- The JSON string escape table (subset: no `\u` escapes, which no input
of this development uses). -/
def escPairs : List (Char × Char) :=
  [('"', '"'), ('\\', '\\'), ('/', '/'), ('n', '\n'),
   ('t', '\t'), ('r', '\r'), ('b', Char.ofNat 8), ('f', Char.ofNat 12)]

/-- Translate a JSON string escape character via the table. -/
def escChar (c : Char) : Option Char :=
  (escPairs.find? (fun p => p.1 = c)).map (·.2)

/-- Parse a JSON string body (the opening quote already consumed),
returning the content and the rest of the input. -/
def parseStringBody : List Char → Except String (String × List Char)
  | [] => .error "Unterminated string"
  | c :: cs =>
    if c = '"' then .ok ("", cs)
    else if c = '\\' then
      match cs with
      | [] => .error "Unterminated string escape"
      | e :: cs2 =>
        match escChar e with
        | some ce =>
          match parseStringBody cs2 with
          | .ok r => .ok (String.mk [ce] ++ r.1, r.2)
          | .error err => .error err
        | none => .error "Unsupported escape"
    else
      match parseStringBody cs with
      | .ok r => .ok (String.mk [c] ++ r.1, r.2)
      | .error err => .error err

/-- Split off a maximal run of leading decimal digits. -/
def takeDigits : List Char → (List Char × List Char)
  | [] => ([], [])
  | c :: cs =>
    if c.isDigit then
      let (d, r) := takeDigits cs
      (c :: d, r)
    else ([], c :: cs)

/-- Digit run to a natural number. -/
def digitsToNat (ds : List Char) : Nat :=
  ds.foldl (fun acc c => acc * 10 + (c.toNat - 48)) 0

/-- Parse a JSON number (subset: optional minus, integer part, optional
fraction; no exponents, which no input of this development uses). -/
def parseNumber (s : List Char) : Except String (Rat × List Char) :=
  let (neg, s1) : Bool × List Char :=
    match s with
    | c :: cs => if c = '-' then (true, cs) else (false, s)
    | [] => (false, s)
  let (ip, s2) := takeDigits s1
  if ip = [] then .error "Expecting value" else
  match s2 with
  | '.' :: s3 =>
    let (fp, s4) := takeDigits s3
    if fp = [] then .error "Expecting digits after decimal point" else
    let mag : Rat := (digitsToNat ip : Rat) + (digitsToNat fp : Rat) / ((10 : Rat) ^ fp.length)
    .ok (if neg then -mag else mag, s4)
  | _ => .ok (if neg then -(digitsToNat ip : Rat) else (digitsToNat ip : Rat), s2)

/-- Strip an expected literal prefix. -/
def dropPrefix? : List Char → List Char → Option (List Char)
  | [], s => some s
  | _ :: _, [] => none
  | a :: ps, b :: ss => if a = b then dropPrefix? ps ss else none

mutual

/-- A model of Python `json.loads` value parsing on the JSON subset this
program exchanges with the language model (objects, arrays, strings,
numbers, booleans, null).  Fuel bounds the recursion; `jsonLoads` supplies
more fuel than any input can consume. -/
def parseVal : Nat → List Char → Except String (PyVal × List Char)
  | 0, _ => .error "Too deeply nested"
  | Nat.succ fuel, s =>
    match skipWs s with
    | [] => .error "Expecting value"
    | c :: cs =>
      if c = '"' then
        match parseStringBody cs with
        | .ok r => .ok (.vStr r.1, r.2)
        | .error e => .error e
      else if c = openBraceChar then parseObjRest fuel cs true []
      else if c = '[' then parseArrRest fuel cs true []
      else
        match dropPrefix? "null".toList (c :: cs) with
        | some rest => .ok (.vNone, rest)
        | none =>
        match dropPrefix? "true".toList (c :: cs) with
        | some rest => .ok (.vBool true, rest)
        | none =>
        match dropPrefix? "false".toList (c :: cs) with
        | some rest => .ok (.vBool false, rest)
        | none =>
          match parseNumber (c :: cs) with
          | .ok r => .ok (.vNum r.1, r.2)
          | .error e => .error e

/-- Members of a JSON object after the opening brace (`isFirst`) or after a
comma. -/
def parseObjRest : Nat → List Char → Bool → List (String × PyVal) →
    Except String (PyVal × List Char)
  | 0, _, _, _ => .error "Too deeply nested"
  | Nat.succ fuel, s, isFirst, acc =>
    match skipWs s with
    | [] => .error "Unterminated object"
    | c :: cs =>
      if isFirst && c = closeBraceChar then .ok (.vDict acc, cs)
      else if c = '"' then
        match parseStringBody cs with
        | .error e => .error e
        | .ok (key, s1) =>
          match skipWs s1 with
          | ':' :: s2 =>
            match parseVal fuel s2 with
            | .error e => .error e
            | .ok (v, s3) =>
              match skipWs s3 with
              | ',' :: s4 => parseObjRest fuel s4 false (acc ++ [(key, v)])
              | c2 :: s4 =>
                if c2 = closeBraceChar then .ok (.vDict (acc ++ [(key, v)]), s4)
                else .error "Expecting comma"
              | [] => .error "Unterminated object"
          | _ => .error "Expecting colon"
      else .error "Expecting property name"

/-- Elements of a JSON array after the opening bracket (`isFirst`) or after
a comma. -/
def parseArrRest : Nat → List Char → Bool → List PyVal →
    Except String (PyVal × List Char)
  | 0, _, _, _ => .error "Too deeply nested"
  | Nat.succ fuel, s, isFirst, acc =>
    match skipWs s with
    | [] => .error "Unterminated array"
    | c :: cs =>
      if isFirst && c = ']' then .ok (.vList acc, cs)
      else
        match parseVal fuel (c :: cs) with
        | .error e => .error e
        | .ok (v, s1) =>
          match skipWs s1 with
          | ',' :: s2 => parseArrRest fuel s2 false (acc ++ [v])
          | ']' :: s2 => .ok (.vList (acc ++ [v]), s2)
          | _ => .error "Expecting comma"

end

/-- A model of `json.loads`: parse one value and reject trailing non-space
input (Python raises `Extra data`). -/
def jsonLoads (s : String) : Except String PyVal :=
  let l := s.toList
  match parseVal (2 * l.length + 16) l with
  | .error e => .error e
  | .ok (v, rest) => if skipWs rest = [] then .ok v else .error "Extra data"

/-- `plan.get(k)` when a string is expected: a missing key, or a key bound
to a non-string value (which compares unequal to every string the loop
tests against), is `none`. -/
def getStrField (fields : List (String × PyVal)) (k : String) : Option String :=
  match fields.lookup k with
  | some (.vStr s) => some s
  | _ => none

/-- `plan.get("tool_args", {})` as an association list. -/
def getDictField (fields : List (String × PyVal)) (k : String) :
    List (String × PyVal) :=
  match fields.lookup k with
  | some (.vDict kvs) => kvs
  | _ => []

/-- The fallback plan built by the `except` clause of `_plan_next_step`:
`{"action": "complete", "message": f"Planning failed: {e}"}`. -/
def planningFailed (e : String) : PlanObj :=
  { action := some "complete", toolName := none, toolArgs := [],
    message := some ("Planning failed: " ++ e), description := none }

/-- The fallback plan when no JSON object is found in the response. -/
def noJsonFallback : PlanObj :=
  { action := some "complete", toolName := none, toolArgs := [],
    message := some "Could not find JSON in planning response",
    description := none }

/-- `_plan_next_step` response handling: extract the brace-regex span, parse
it with `json.loads`, and read the decision fields; a missing span degrades
to the no-JSON `complete` fallback, and any exception while parsing or
reading fields (including a non-dict top-level value) degrades to the
`Planning failed` `complete` fallback. -/
def plan_next_step (response : String) : PlanObj :=
  match extractJsonStr response with
  | none => noJsonFallback
  | some jstr =>
    match jsonLoads jstr with
    | .error e => planningFailed e
    | .ok (.vDict fields) =>
      { action := getStrField fields "action"
        toolName := getStrField fields "tool_name"
        toolArgs := getDictField fields "tool_args"
        message := getStrField fields "message"
        description := getStrField fields "description" }
    | .ok _ => planningFailed "AttributeError: get"

/-- One entry of `OnPyClient.features`: a sketch with its plane, its
`has_geometry` flag and its optional `geometry_type` string, or an extrude
with its operation, source sketch and rendered distance.  (The cosmetic
`details` string of circle/rectangle entries and the raw OnPy objects are
not modelled; nothing reads them.) -/
inductive FeatureInfo where
  | sketch (plane : String) (hasGeometry : Bool) (geometryType : Option String)
  | extrude (operation : String) (sourceSketch : String) (distance : String)
  deriving DecidableEq

/-- The mutable state of an `OnPyClient`: presence of the current document
and part studio, the keys of `self.sketches` in insertion order, the keys of
`self.planes`, the `self.features` registry in insertion order, and how many
parts `self.parts` holds. -/
structure ClientState where
  currentDocumentSet : Bool
  currentPartstudioSet : Bool
  sketches : List String
  planes : List String
  features : List (String × FeatureInfo)
  parts : Nat
  deriving DecidableEq

/-- `OnPyClient.__init__`: empty registries, nothing selected. -/
def initialClientState : ClientState :=
  { currentDocumentSet := false, currentPartstudioSet := false,
    sketches := [], planes := [], features := [], parts := 0 }

/-- One call into the external OnPy library (the CAD collaborator). -/
inductive CadCall where
  | createDocument (name : String)
  | getPartstudio
  | addSketch (plane name : String)
  | addCircle (center : Rat × Rat) (radius : Rat)
  | addCornerRectangle (corner1 corner2 : Rat × Rat)
  | addLine (startPt endPt : Rat × Rat)
  | addCenterpointArc (center : Rat × Rat) (radius startAngle endAngle : Rat)
  | tracePoints (pts : List (Rat × Rat)) (endConnect : Bool)
  | addExtrude (distance : Rat)
  deriving DecidableEq

/-- The exact conversion factor `25.4` used for every mm → inch conversion. -/
def mmPerInch : Rat := 254 / 10

/-- Update the value stored under `name` (Python
`self.features[name][...] = ...` inside an `if name in self.features`
guard): entries under other keys are untouched, a missing key is a no-op. -/
def updateFeature (fs : List (String × FeatureInfo)) (name : String)
    (f : FeatureInfo → FeatureInfo) : List (String × FeatureInfo) :=
  fs.map fun p => if p.1 = name then (p.1, f p.2) else p

/-- Python dict assignment `d[name] = fi`: overwrite in place when the key
exists, append otherwise. -/
def setKey (fs : List (String × FeatureInfo)) (name : String)
    (fi : FeatureInfo) : List (String × FeatureInfo) :=
  if fs.any (fun p => p.1 = name) then
    fs.map fun p => if p.1 = name then (name, fi) else p
  else fs ++ [(name, fi)]

/-- Python dict-key insertion order for a string-keyed dict modelled as a
key list. -/
def insertName (l : List String) (n : String) : List String :=
  if l.contains n then l else l ++ [n]

/-- Dynamic access `v[0] / 25.4, v[1] / 25.4` of a two-coordinate point:
defined when the value is a list whose first two members are numbers
(Python raises `TypeError`/`IndexError` otherwise). -/
def asPoint : PyVal → Except String (Rat × Rat)
  | .vList (.vNum x :: .vNum y :: _) => .ok (x, y)
  | _ => .error "TypeError: point expected [x, y]"

/-- A bare numeric value; dividing anything else by `25.4` raises in Python. -/
def asNum : PyVal → Except String Rat
  | .vNum n => .ok n
  | _ => .error "TypeError: unsupported operand type(s) for /"

/-- A string value. -/
def asStr : PyVal → Except String String
  | .vStr s => .ok s
  | _ => .error "TypeError: expected str"

/-- Points list `[(p[0] / 25.4, p[1] / 25.4) for p in points]` before the
division by `25.4`. -/
def asPointList : PyVal → Except String (List (Rat × Rat))
  | .vList xs => asPointListAux xs
  | _ => .error "TypeError: expected list of points"
where
  asPointListAux : List PyVal → Except String (List (Rat × Rat))
  | [] => .ok []
  | v :: vs => do
    let p ← asPoint v
    let ps ← asPointListAux vs
    .ok (p :: ps)

/-- ASCII `str.lower()` as used on plane names and operation names
(kernel-computable, unlike `String.toLower`). -/
def strLower (s : String) : String := String.mk (s.toList.map Char.toLower)

/-- The message of
`f"Sketch '{sketch_name}' not found. Available sketches: {list(self.sketches.keys())}"`
(list rendering simplified to a comma-separated join). -/
def sketchNotFoundMsg (sketchName : String) (st : ClientState) : String :=
  "Sketch \x27" ++ sketchName ++ "\x27 not found. Available sketches: [" ++
    String.intercalate ", " st.sketches ++ "]"

/-- `OnPyClient.create_document`: one `onpy.create_document` call (modelled
as succeeding), stores the document, returns fixed ids
(`"onpy_document"` / `"onpy_workspace"`) read by the agent. -/
def create_document (st : ClientState) (name : String) :
    Except String (ClientState × List CadCall) :=
  .ok ({ st with currentDocumentSet := true }, [.createDocument name])

/-- `OnPyClient.create_part_studio`: requires a current document, fetches
the part studio and stores the three default planes. -/
def create_part_studio (st : ClientState) (_name : String) :
    Except String (ClientState × List CadCall) :=
  if st.currentDocumentSet then
    .ok ({ st with
           currentPartstudioSet := true
           planes := insertName (insertName (insertName st.planes "Front") "Top") "Right" },
         [.getPartstudio])
  else .error "No document selected. Create a document first."

/-- `OnPyClient.create_sketch`: requires a part studio; resolves the plane
(Top/Front/Right case-insensitively, else a stored custom plane, else an
error); on success registers the sketch in `self.sketches` and a fresh
`self.features` entry with `has_geometry=False` and no `geometry_type`
key. -/
def create_sketch (st : ClientState) (planeName sketchName : String) :
    Except String (ClientState × List CadCall) :=
  if !st.currentPartstudioSet then
    .error "No part studio available. Create a part studio first."
  else if strLower planeName = "top" || strLower planeName = "front" ||
      strLower planeName = "right" || st.planes.contains planeName then
    .ok ({ st with
           sketches := insertName st.sketches sketchName
           features := setKey st.features sketchName (.sketch planeName false none) },
         [.addSketch planeName sketchName])
  else
    .error ("Failed to get plane \x27" ++ planeName ++ "\x27: Unknown plane: " ++
      planeName ++ ". Available: Front, Top, Right")

/-- `OnPyClient.add_circle_to_sketch`: the sketch-name check comes first
(before unit conversion and before any collaborator call); on success the
feature entry (if present) gets `has_geometry=True` and `geometry_type`
**overwritten** with `"circle"`. -/
def add_circle_to_sketch (st : ClientState) (sketch_name : String)
    (center radius : PyVal) : Except String (ClientState × List CadCall) :=
  if !st.sketches.contains sketch_name then
    .error (sketchNotFoundMsg sketch_name st)
  else do
    let r ← asNum radius
    let c ← asPoint center
    .ok ({ st with features := updateFeature st.features sketch_name (fun fi =>
             match fi with
             | .sketch plane _ _ => .sketch plane true (some "circle")
             | other => other) },
         [.addCircle (c.1 / mmPerInch, c.2 / mmPerInch) (r / mmPerInch)])

/-- `OnPyClient.add_rectangle_to_sketch`: like the circle, with
`geometry_type` overwritten with `"rectangle"`. -/
def add_rectangle_to_sketch (st : ClientState) (sketch_name : String)
    (corner_1 corner_2 : PyVal) : Except String (ClientState × List CadCall) :=
  if !st.sketches.contains sketch_name then
    .error (sketchNotFoundMsg sketch_name st)
  else do
    let c1 ← asPoint corner_1
    let c2 ← asPoint corner_2
    .ok ({ st with features := updateFeature st.features sketch_name (fun fi =>
             match fi with
             | .sketch plane _ _ => .sketch plane true (some "rectangle")
             | other => other) },
         [.addCornerRectangle (c1.1 / mmPerInch, c1.2 / mmPerInch)
            (c2.1 / mmPerInch, c2.2 / mmPerInch)])

/-- `OnPyClient.add_line_to_sketch`: sketch-name check first; the feature
entry gets `geometry_type` set to `"line"` when the key was absent and to
`"mixed"` when **any** `geometry_type` was already recorded. -/
def add_line_to_sketch (st : ClientState) (sketch_name : String)
    (start_point end_point : PyVal) : Except String (ClientState × List CadCall) :=
  if !st.sketches.contains sketch_name then
    .error (sketchNotFoundMsg sketch_name st)
  else do
    let sp ← asPoint start_point
    let ep ← asPoint end_point
    .ok ({ st with features := updateFeature st.features sketch_name (fun fi =>
             match fi with
             | .sketch plane _ none => .sketch plane true (some "line")
             | .sketch plane _ (some _) => .sketch plane true (some "mixed")
             | other => other) },
         [.addLine (sp.1 / mmPerInch, sp.2 / mmPerInch)
            (ep.1 / mmPerInch, ep.2 / mmPerInch)])

/-- `OnPyClient.add_arc_to_sketch`: sketch-name check first; `"arc"` /
`"mixed"` like the line case; angles are passed through unconverted. -/
def add_arc_to_sketch (st : ClientState) (sketch_name : String)
    (centerpoint radius start_angle end_angle : PyVal) :
    Except String (ClientState × List CadCall) :=
  if !st.sketches.contains sketch_name then
    .error (sketchNotFoundMsg sketch_name st)
  else do
    let c ← asPoint centerpoint
    let r ← asNum radius
    let sa ← asNum start_angle
    let ea ← asNum end_angle
    .ok ({ st with features := updateFeature st.features sketch_name (fun fi =>
             match fi with
             | .sketch plane _ none => .sketch plane true (some "arc")
             | .sketch plane _ (some _) => .sketch plane true (some "mixed")
             | other => other) },
         [.addCenterpointArc (c.1 / mmPerInch, c.2 / mmPerInch) (r / mmPerInch) sa ea])

/-- `OnPyClient.trace_points_in_sketch`: sketch-name check first;
`"polyline"` / `"mixed"` like the line case. -/
def trace_points_in_sketch (st : ClientState) (sketch_name : String)
    (points : PyVal) (end_connect : Bool) :
    Except String (ClientState × List CadCall) :=
  if !st.sketches.contains sketch_name then
    .error (sketchNotFoundMsg sketch_name st)
  else do
    let pts ← asPointList points
    .ok ({ st with features := updateFeature st.features sketch_name (fun fi =>
             match fi with
             | .sketch plane _ none => .sketch plane true (some "polyline")
             | .sketch plane _ (some _) => .sketch plane true (some "mixed")
             | other => other) },
         [.tracePoints (pts.map fun p => (p.1 / mmPerInch, p.2 / mmPerInch)) end_connect])

/-- `OnPyClient.extrude_sketch_by_name`: part-studio check, then sketch-name
check, then unit conversion and the extrude call; a `"new"` operation stores
the created part and every operation records an extrude feature entry.
(The `hasattr(extrude, 'get_created_parts')` probe depends on the external
OnPy object; the model takes the `elif operation == "new"` branch.) -/
def extrude_sketch_by_name (st : ClientState) (sketch_name : String)
    (distance : PyVal) (operation : String) :
    Except String (ClientState × List CadCall) :=
  if !st.currentPartstudioSet then
    .error "No part studio available."
  else if !st.sketches.contains sketch_name then
    .error (sketchNotFoundMsg sketch_name st)
  else do
    let d ← asNum distance
    let extrudeName := "Extrude " ++ toString d ++ "mm (" ++ operation ++ ")"
    .ok ({ st with
           parts := if strLower operation = "new" then st.parts + 1 else st.parts
           features := setKey st.features extrudeName
             (.extrude operation sketch_name (toString d ++ "mm")) },
         [.addExtrude (d / mmPerInch)])

/-- `OnPyClient.get_available_sketches`: names of the feature entries of
type sketch, in insertion order. -/
def get_available_sketches (st : ClientState) : List String :=
  (st.features.filter fun p =>
    match p.2 with
    | .sketch _ _ _ => true
    | _ => false).map (·.1)

/-- One line of `OnPyClient.get_current_features_summary`. -/
def featureSummaryLine (p : String × FeatureInfo) : String :=
  match p.2 with
  | .sketch plane hasGeometry geometryType =>
    "  - \x27" ++ p.1 ++ "\x27: sketch on " ++ plane ++
      (if hasGeometry then
        " (contains " ++ geometryType.getD "no geometry" ++ ")"
      else " (empty)") ++ "\n"
  | .extrude _ sourceSketch distance =>
    "  - \x27" ++ p.1 ++ "\x27: extrude of \x27" ++ sourceSketch ++ "\x27 by " ++
      distance ++ "\n"

/-- `OnPyClient.get_current_features_summary`: deterministic rendering of
the registry in insertion order (bullet glyph simplified to `-`). -/
def get_current_features_summary (st : ClientState) : String :=
  if st.features = [] then "No features created yet."
  else
    (st.features.foldl (fun acc p => acc ++ featureSummaryLine p)
      "Current Features:\n").trim

/-- `OnPyClient.test_connection`: the source returns `True` unconditionally
("OnPy will fail on first real operation if auth is bad"); the `reachable`
argument stands for whether the external CAD service actually answers, and
is ignored exactly as the source ignores it. -/
def test_connection (_reachable : Bool) : Bool := true

/-- The mutable state of a `CADAgent`: the three session refs plus the
owned `OnPyClient`. -/
structure AgentState where
  currentDocument : Option String
  currentWorkspace : Option String
  currentPartStudio : Option String
  client : ClientState
  deriving DecidableEq

/-- The agent right after `CADAgent.__init__`. -/
def initialAgentState : AgentState :=
  { currentDocument := none, currentWorkspace := none,
    currentPartStudio := none, client := initialClientState }

/-- `CADAgent.__init__`: abort with an exception when the connection test
reports failure, otherwise start with an empty session. -/
def initAgent (reachable : Bool) : Except String AgentState :=
  if test_connection reachable then .ok initialAgentState
  else .error "Failed to connect to Onshape API. Check your API keys and authentication."

/-- `arguments[k]`: a missing key raises `KeyError` (whose `str` is the
quoted key). -/
def getItem (args : List (String × PyVal)) (k : String) : Except String PyVal :=
  match args.lookup k with
  | some v => .ok v
  | none => .error ("\x27" ++ k ++ "\x27")

/-- The dispatch body of `_execute_tool_call`, branch by branch in source
order.  Errors are the strings of the exceptions each branch raises; the
final wrapping `Error executing {name}: {e}` is applied by
`execute_tool_call` below.  Several branches call `OnPyClient` methods that
do not exist in the source (`search_documents_by_name`, `get_document_info`,
`delete_part_studio_feature`) and therefore raise `AttributeError`; the
`revolve_sketch` path reads `self._last_sketch`, which nothing in the source
ever assigns, and therefore always fails its sketch check. -/
def dispatchToolCall (functionName : String) (args : List (String × PyVal))
    (ast : AgentState) : Except String (AgentState × List CadCall) :=
  if functionName = "create_document" then do
    let v ← getItem args "name"
    let name ← asStr v
    let (cst, calls) ← create_document ast.client name
    .ok ({ ast with
           client := cst
           currentDocument := some "onpy_document"
           currentWorkspace := some "onpy_workspace" }, calls)
  else if functionName = "select_document" then do
    let v ← getItem args "document_id"
    let d ← asStr v
    if d.length ≠ 24 || d.toList.contains ' ' then
      .error "AttributeError: \x27OnPyClient\x27 object has no attribute \x27search_documents_by_name\x27"
    else
      .error "AttributeError: \x27OnPyClient\x27 object has no attribute \x27get_document_info\x27"
  else if functionName = "create_part_studio" then
    if ast.currentDocument = none || ast.currentWorkspace = none then
      .error "No document or workspace selected. Create a document first."
    else do
      let v ← getItem args "name"
      let name ← asStr v
      let (cst, calls) ← create_part_studio ast.client name
      .ok ({ ast with
             client := cst
             currentPartStudio := some "onpy_partstudio" }, calls)
  else if functionName = "create_sketch" then
    if ast.currentPartStudio = none then
      .error "No part studio selected. Create a part studio first."
    else do
      let pv ← getItem args "plane"
      let plane ← asStr pv
      let nv ← getItem args "name"
      let name ← asStr nv
      let (cst, calls) ← create_sketch ast.client plane name
      .ok ({ ast with client := cst }, calls)
  else if functionName = "add_circle_to_sketch" then
    if ast.currentPartStudio = none then
      .error "No part studio selected. Create a part studio first."
    else do
      let sv ← getItem args "sketch_name"
      let sn ← asStr sv
      let center ← getItem args "center"
      let radius ← getItem args "radius"
      let (cst, calls) ← add_circle_to_sketch ast.client sn center radius
      .ok ({ ast with client := cst }, calls)
  else if functionName = "add_rectangle_to_sketch" then
    if ast.currentPartStudio = none then
      .error "No part studio selected. Create a part studio first."
    else do
      let sv ← getItem args "sketch_name"
      let sn ← asStr sv
      let c1 ← getItem args "corner_1"
      let c2 ← getItem args "corner_2"
      let (cst, calls) ← add_rectangle_to_sketch ast.client sn c1 c2
      .ok ({ ast with client := cst }, calls)
  else if functionName = "add_line_to_sketch" then do
    let sv ← getItem args "sketch_name"
    let sn ← asStr sv
    let sp ← getItem args "start_point"
    let ep ← getItem args "end_point"
    let (cst, calls) ← add_line_to_sketch ast.client sn sp ep
    .ok ({ ast with client := cst }, calls)
  else if functionName = "add_arc_to_sketch" then do
    let sv ← getItem args "sketch_name"
    let sn ← asStr sv
    let cp ← getItem args "centerpoint"
    let r ← getItem args "radius"
    let sa ← getItem args "start_angle"
    let ea ← getItem args "end_angle"
    let (cst, calls) ← add_arc_to_sketch ast.client sn cp r sa ea
    .ok ({ ast with client := cst }, calls)
  else if functionName = "trace_points_in_sketch" then do
    let sv ← getItem args "sketch_name"
    let sn ← asStr sv
    let pts ← getItem args "points"
    let endConnect : Bool :=
      match args.lookup "end_connect" with
      | some (.vBool b) => b
      | _ => true
    let (cst, calls) ← trace_points_in_sketch ast.client sn pts endConnect
    .ok ({ ast with client := cst }, calls)
  else if functionName = "extrude_sketch" then
    if ast.currentPartStudio = none then
      .error "No part studio selected. Create a part studio first."
    else do
      let sv ← getItem args "sketch_name"
      let sn ← asStr sv
      let dist ← getItem args "endBoundOffset"
      let operation ←
        match args.lookup "operation" with
        | none => Except.ok "new"
        | some v => asStr v
      let (cst, calls) ← extrude_sketch_by_name ast.client sn dist operation
      .ok ({ ast with client := cst }, calls)
  else if functionName = "revolve_sketch" then
    if ast.currentPartStudio = none then
      .error "No part studio selected. Create a part studio first."
    else do
      let _ ← getItem args "sketch_id"
      .error "No sketch found to revolve. Create a sketch first."
  else if functionName = "get_features" then
    if ast.currentPartStudio = none then
      .error "No part studio selected. Create a part studio first."
    else
      .ok (ast, [])
  else if functionName = "get_planes" then
    .ok (ast, [])
  else if functionName = "delete_feature" then
    if ast.currentPartStudio = none then
      .error "No part studio selected. Create a part studio first."
    else
      .error "AttributeError: \x27OnPyClient\x27 object has no attribute \x27delete_part_studio_feature\x27"
  else if functionName = "create_fillet" then
    if ast.currentPartStudio = none then
      .error "No part studio selected. Create a part studio first."
    else do
      let _ ← getItem args "edge_queries"
      let _ ← getItem args "radius"
      .error "Fillet operations not yet supported in OnPy integration"
  else if functionName = "create_chamfer" then
    if ast.currentPartStudio = none then
      .error "No part studio selected. Create a part studio first."
    else do
      let _ ← getItem args "edge_queries"
      let _ ← getItem args "distance"
      .error "Chamfer operations not yet supported in OnPy integration"
  else
    .ok (ast, [])

/-- `_execute_tool_call`: run the dispatch and wrap any exception as
`Error executing {function_name}: {e}` before re-raising.  In this code an
operation either fails before mutating the session or mutates it only after
its collaborator call succeeded, so the pre-call state is returned exactly
on failure.  The source's `else` branch for an unrecognized name only
prints and returns (it does not raise). -/
def execute_tool_call (functionName : String) (args : List (String × PyVal))
    (ast : AgentState) : Except String (AgentState × List CadCall) :=
  match dispatchToolCall functionName args ast with
  | .ok r => .ok r
  | .error e => .error ("Error executing " ++ functionName ++ ": " ++ e)

/-- `f"Tool '{tool_name}' not found. Available tools: {available_tool_names}"`
(list rendering simplified to a comma-separated join). -/
def toolNotFoundMsg (p : PlanObj) : String :=
  "Tool \x27" ++ toolNameStr p ++ "\x27 not found. Available tools: [" ++
    String.intercalate ", " availableToolNames ++ "]"

/-- `_execute_planned_step`: reject a non-`tool_call` action; reject an
unknown tool name (the only pre-dispatch validation); otherwise dispatch,
reporting success or wrapping the exception as
`Failed to execute {tool_name}: {e}` with the state unchanged. -/
def executePlannedStep (p : PlanObj) (ast : AgentState) :
    StepResult × AgentState × List CadCall :=
  if p.action ≠ some "tool_call" then
    (⟨false, "Invalid action type"⟩, ast, [])
  else if !toolNameKnown p then
    (⟨false, toolNotFoundMsg p⟩, ast, [])
  else
    match execute_tool_call (toolNameStr p) p.toolArgs ast with
    | .ok (ast', calls) =>
      (⟨true, "Successfully executed " ++ toolNameStr p⟩, ast', calls)
    | .error e =>
      (⟨false, "Failed to execute " ++ toolNameStr p ++ ": " ++ e⟩, ast, [])

/-- The observable outcome of one `_agentic_workflow` run: the returned
string, how many planner invocations (PLANNING cycles) happened, the
results of the executed steps in order, whether the run ended because the
planner issued `complete`, whether it ended because an executed step
failed, an uncaught planner exception if one occurred, the accumulated
context string, and the final state. -/
structure Outcome (σ : Type) where
  message : String
  plannerCalls : Nat
  steps : List StepResult
  completedByPlanner : Bool
  endedByFailure : Bool
  raised : Option String
  history : String
  finalState : σ

/-- The string returned both when the step budget runs out and when the
loop `break`s on a failed step:
`"Agent workflow completed or reached maximum steps."`. -/
def maxStepsMessage : String := "Agent workflow completed or reached maximum steps."

/-- `max_steps = 10  # Prevent infinite loops`. -/
def max_steps : Nat := 10

/-- The `while step_count < max_steps` loop of `_agentic_workflow`,
parameterized over the planner (which may raise) and the step executor
(which never raises).  `fuel` is the remaining budget, `stepCount` the
number of finished cycles.  On a `complete` decision the loop returns the
decision's message (default `"Part creation completed successfully!"`);
otherwise it executes the step, appends
`"\n\nStep N: {description}\nResult: {output}"` to the context, `break`s if
the step failed, and iterates otherwise. -/
def loopAux {σ : Type} (plan : String → σ → Except String PlanObj)
    (exec : PlanObj → σ → StepResult × σ) :
    Nat → Nat → String → σ → Outcome σ
  | 0, _, ctx, st =>
    { message := maxStepsMessage, plannerCalls := 0, steps := [],
      completedByPlanner := false, endedByFailure := false, raised := none,
      history := ctx, finalState := st }
  | Nat.succ fuel, stepCount, ctx, st =>
    match plan ctx st with
    | .error e =>
      { message := "", plannerCalls := 1, steps := [],
        completedByPlanner := false, endedByFailure := false, raised := some e,
        history := ctx, finalState := st }
    | .ok p =>
      if p.action = some "complete" then
        { message := p.message.getD "Part creation completed successfully!",
          plannerCalls := 1, steps := [], completedByPlanner := true,
          endedByFailure := false, raised := none, history := ctx,
          finalState := st }
      else
        let r := exec p st
        let ctx' := ctx ++ "\n\nStep " ++ toString (stepCount + 1) ++ ": " ++
          p.description.getD "Unknown action" ++ "\nResult: " ++ r.1.output
        if r.1.success then
          let o := loopAux plan exec fuel (stepCount + 1) ctx' r.2
          { o with
            plannerCalls := o.plannerCalls + 1
            steps := r.1 :: o.steps }
        else
          { message := maxStepsMessage, plannerCalls := 1, steps := [r.1],
            completedByPlanner := false, endedByFailure := true, raised := none,
            history := ctx', finalState := r.2 }

/-- `_agentic_workflow`: run the loop with the 10-step budget from the
initial context `"User wants to create: {description}"`. -/
def agenticWorkflow {σ : Type} (plan : String → σ → Except String PlanObj)
    (exec : PlanObj → σ → StepResult × σ) (description : String) (st : σ) :
    Outcome σ :=
  loopAux plan exec max_steps 0 ("User wants to create: " ++ description) st

/-- `create_part_from_description`: run the workflow under
`try/except Exception`, converting any raised exception into the string
`"Error creating part: {e}"` — the entry point always returns a string. -/
def createPartFromDescription {σ : Type}
    (plan : String → σ → Except String PlanObj)
    (exec : PlanObj → σ → StepResult × σ) (description : String) (st : σ) :
    String :=
  match (agenticWorkflow plan exec description st).raised with
  | some e => "Error creating part: " ++ e
  | none => (agenticWorkflow plan exec description st).message

/-- The loop executor instantiated with the real `_execute_planned_step`,
threading an accumulated trace of external CAD calls through the state. -/
def execStepTraced (p : PlanObj) (s : AgentState × List CadCall) :
    StepResult × (AgentState × List CadCall) :=
  let r := executePlannedStep p s.1
  (r.1, (r.2.1, s.2 ++ r.2.2))

/-- The agent loop over the real executor, starting with an empty call
trace. -/
def runAgent (plan : String → AgentState × List CadCall → Except String PlanObj)
    (description : String) (ast : AgentState) :
    Outcome (AgentState × List CadCall) :=
  agenticWorkflow plan execStepTraced description (ast, [])

/-- `reset_session`: set the three session refs to `None`.  The source does
not touch the `OnPyClient` or its registries. -/
def resetSession (ast : AgentState) : AgentState :=
  { ast with
    currentDocument := none
    currentWorkspace := none
    currentPartStudio := none }

theorem loopAux_bounds {σ : Type} (plan : String → σ → Except String PlanObj)
    (exec : PlanObj → σ → StepResult × σ) :
    ∀ (fuel n : Nat) (ctx : String) (st : σ),
      (loopAux plan exec fuel n ctx st).plannerCalls ≤ fuel ∧
      (loopAux plan exec fuel n ctx st).steps.length ≤ fuel := by
  intro fuel
  induction fuel with
  | zero => intro n ctx st; exact ⟨Nat.le_refl 0, Nat.le_refl 0⟩
  | succ f ih =>
    intro n ctx st
    simp only [loopAux]
    cases hp : plan ctx st with
    | error e => constructor <;> simp
    | ok p =>
      by_cases hc : p.action = some "complete"
      · simp [hc]
      · simp only [hc, if_false]
        by_cases hs : (exec p st).1.success
        · simp only [hs, if_true]
          refine ⟨Nat.succ_le_succ (ih _ _ _).1, ?_⟩
          simpa using Nat.succ_le_succ (ih _ _ _).2
        · simp only [hs, if_false]
          constructor <;> simp

theorem loopAux_saturates {σ : Type} (plan : String → σ → Except String PlanObj)
    (exec : PlanObj → σ → StepResult × σ)
    (hplan : ∀ ctx st, ∃ p, plan ctx st = .ok p ∧ p.action ≠ some "complete")
    (hexec : ∀ p st, (exec p st).1.success = true) :
    ∀ (fuel n : Nat) (ctx : String) (st : σ),
      (loopAux plan exec fuel n ctx st).plannerCalls = fuel ∧
      (loopAux plan exec fuel n ctx st).message = maxStepsMessage ∧
      (loopAux plan exec fuel n ctx st).completedByPlanner = false ∧
      (loopAux plan exec fuel n ctx st).endedByFailure = false ∧
      (loopAux plan exec fuel n ctx st).raised = none := by
  intro fuel
  induction fuel with
  | zero => intro n ctx st; exact ⟨rfl, rfl, rfl, rfl, rfl⟩
  | succ f ih =>
    intro n ctx st
    obtain ⟨p, hp, hc⟩ := hplan ctx st
    simp only [loopAux, hp, hc, if_false, hexec p st, if_true]
    obtain ⟨h1, h2, h3, h4, h5⟩ := ih (n + 1)
      (ctx ++ "\n\nStep " ++ toString (n + 1) ++ ": " ++
        p.description.getD "Unknown action" ++ "\nResult: " ++ (exec p st).1.output)
      (exec p st).2
    exact ⟨by simp [h1], by simp [h2], by simp [h3], by simp [h4], by simp [h5]⟩

theorem all_dropLast_cons (p : StepResult → Bool) (r : StepResult)
    (l : List StepResult) (hr : p r = true) (hl : l.dropLast.all p = true) :
    (r :: l).dropLast.all p = true := by
  cases l with
  | nil => simp
  | cons b l2 =>
    simp only [List.dropLast, List.all_cons, Bool.and_eq_true]
    exact ⟨hr, by simpa using hl⟩

theorem stepsFailLast : ∀ (l : List StepResult),
    l.dropLast.all (fun r => r.success) = true →
    ∀ (i : Nat) (h : i < l.length), (l.get ⟨i, h⟩).success = false →
      i + 1 = l.length := by
  intro l
  induction l with
  | nil => intro _ i h; simp at h
  | cons a l ih =>
    intro hall i h hfail
    cases l with
    | nil =>
      simp only [List.length_cons, List.length_nil, Nat.lt_succ_iff, Nat.le_zero] at h
      subst h
      rfl
    | cons b l2 =>
      have hd : (a :: b :: l2).dropLast = a :: (b :: l2).dropLast := rfl
      rw [hd, List.all_cons, Bool.and_eq_true] at hall
      match i with
      | 0 =>
        exfalso
        simp only [List.get] at hfail
        rw [hfail] at hall
        exact Bool.noConfusion hall.1
      | Nat.succ j =>
        have := ih hall.2 j (by simpa using h) (by simpa using hfail)
        simpa using this

theorem loopAux_fail_is_last {σ : Type} (plan : String → σ → Except String PlanObj)
    (exec : PlanObj → σ → StepResult × σ) :
    ∀ (fuel n : Nat) (ctx : String) (st : σ),
      (loopAux plan exec fuel n ctx st).steps.dropLast.all
        (fun r => r.success) = true ∧
      ((∃ r ∈ (loopAux plan exec fuel n ctx st).steps, r.success = false) →
        (loopAux plan exec fuel n ctx st).endedByFailure = true ∧
        (loopAux plan exec fuel n ctx st).completedByPlanner = false) := by
  intro fuel
  induction fuel with
  | zero =>
    intro n ctx st
    refine ⟨by simp [loopAux], ?_⟩
    rintro ⟨r, hr, -⟩
    exact absurd hr (by simp [loopAux])
  | succ f ih =>
    intro n ctx st
    simp only [loopAux]
    cases hp : plan ctx st with
    | error e =>
      refine ⟨by simp, ?_⟩
      rintro ⟨r, hr, -⟩
      exact absurd hr (by simp)
    | ok p =>
      by_cases hc : p.action = some "complete"
      · simp only [hc, if_true]
        refine ⟨by simp, ?_⟩
        rintro ⟨r, hr, -⟩
        exact absurd hr (by simp)
      · simp only [hc, if_false]
        by_cases hs : (exec p st).1.success
        · simp only [hs, if_true]
          obtain ⟨ih1, ih2⟩ := ih (n + 1)
            (ctx ++ "\n\nStep " ++ toString (n + 1) ++ ": " ++
              p.description.getD "Unknown action" ++ "\nResult: " ++ (exec p st).1.output)
            (exec p st).2
          constructor
          · exact all_dropLast_cons _ _ _ (by simpa using hs) ih1
          · rintro ⟨r, hr, hrf⟩
            simp only [List.mem_cons] at hr
            rcases hr with hr | hr
            · exfalso
              rw [hr] at hrf
              rw [hrf] at hs
              exact Bool.noConfusion hs
            · have := ih2 ⟨r, hr, hrf⟩
              exact ⟨by simpa using this.1, by simpa using this.2⟩
        · simp only [hs, if_false]
          exact ⟨by simp, fun _ => ⟨rfl, rfl⟩⟩

theorem agenticWorkflow_first_fail {σ : Type}
    (plan : String → σ → Except String PlanObj)
    (exec : PlanObj → σ → StepResult × σ) (desc : String) (st : σ) (p : PlanObj)
    (hp : plan ("User wants to create: " ++ desc) st = .ok p)
    (hc : p.action ≠ some "complete")
    (hf : (exec p st).1.success = false) :
    agenticWorkflow plan exec desc st =
      { message := maxStepsMessage, plannerCalls := 1, steps := [(exec p st).1],
        completedByPlanner := false, endedByFailure := true, raised := none,
        history := ("User wants to create: " ++ desc) ++ "\n\nStep " ++
          toString (1 : Nat) ++ ": " ++ p.description.getD "Unknown action" ++
          "\nResult: " ++ (exec p st).1.output,
        finalState := (exec p st).2 } := by
  show loopAux plan exec (Nat.succ 9) 0 ("User wants to create: " ++ desc) st = _
  rw [loopAux, hp]
  simp [if_neg hc, hf]

/-- A session state with a part studio and one registered (still empty)
sketch `"Base Sketch"` — the state reached by
`create_document → create_part_studio → create_sketch`. -/
def stWithSketch : AgentState :=
  { currentDocument := some "onpy_document"
    currentWorkspace := some "onpy_workspace"
    currentPartStudio := some "onpy_partstudio"
    client := { currentDocumentSet := true, currentPartstudioSet := true,
                sketches := ["Base Sketch"], planes := ["Front", "Top", "Right"],
                features := [("Base Sketch", .sketch "Top" false none)],
                parts := 0 } }

/-- Circle arguments whose `radius` is the unit-suffixed string `"25mm"`. -/
def args25mm : List (String × PyVal) :=
  [("sketch_name", .vStr "Base Sketch"),
   ("center", .vList [.vNum 0, .vNum 0]),
   ("radius", .vStr "25mm")]

/-- A planner decision carrying the `"25mm"` arguments. -/
def plan25mm : PlanObj :=
  { action := some "tool_call", toolName := some "add_circle_to_sketch",
    toolArgs := args25mm, message := none, description := none }

/-- Schema-conformant circle arguments (`radius` is a bare number). -/
def goodCircleArgs : List (String × PyVal) :=
  [("sketch_name", .vStr "Base Sketch"),
   ("center", .vList [.vNum 0, .vNum 0]),
   ("radius", .vNum 25)]

/-- **C1, counterexample.**  The claim says pre-dispatch validation rejects
an argument whose runtime type does not match the declared type, such as the
string `"25mm"` where a number is declared.  At this explicit input the
code's pre-dispatch validation (`toolNameKnown`, the only check
`_execute_planned_step` performs before dispatching) accepts the decision
although it violates the `ToolSpec` schema, and the decision is dispatched —
it fails only during execution, as a wrapped `TypeError`, not as a
validation rejection. -/
theorem C1_counterexample :
    toolNameKnown plan25mm = true ∧
    conformsCatalog "add_circle_to_sketch" args25mm = false ∧
    (executePlannedStep plan25mm stWithSketch).1.success = false ∧
    (executePlannedStep plan25mm stWithSketch).1.output =
      "Failed to execute add_circle_to_sketch: Error executing " ++
        "add_circle_to_sketch: TypeError: unsupported operand type(s) for /" := by
  exact ⟨rfl, rfl, rfl, rfl⟩

/-- **C1, amended.**  Validation before dispatch rejects a planner tool_call
decision exactly when its tool name is unknown; it does not examine the
arguments at all, so every ToolSpec-conformant argument set is accepted,
and schema-violating argument sets (missing required parameters,
unit-suffixed strings such as `"25mm"`, wrong arity) are accepted and
dispatched too, surfacing only as execution failures.  A decision with an
unknown tool name is rejected before dispatch with the not-found record and
an unchanged session. -/
theorem C1_amended :
    (∀ (name : String) (args : List (String × PyVal)),
      conformsCatalog name args = true →
        toolNameKnown { action := some "tool_call", toolName := some name,
                        toolArgs := args, message := none,
                        description := none } = true) ∧
    (∀ (name : String) (args args2 : List (String × PyVal)),
      toolNameKnown { action := some "tool_call", toolName := some name,
                      toolArgs := args, message := none, description := none } =
      toolNameKnown { action := some "tool_call", toolName := some name,
                      toolArgs := args2, message := none,
                      description := none }) ∧
    (∀ (p : PlanObj) (ast : AgentState),
      p.action = some "tool_call" → toolNameKnown p = false →
        executePlannedStep p ast = (⟨false, toolNotFoundMsg p⟩, ast, [])) := by
  refine ⟨?_, fun _ _ _ => rfl, ?_⟩
  · intro name args h
    simp only [conformsCatalog, List.any_eq_true, Bool.and_eq_true] at h
    obtain ⟨spec, hmem, hname, -⟩ := h
    simp only [toolNameKnown, toolNameStr, Option.getD_some, availableToolNames]
    have : name ∈ tools.map (·.tname) := by
      refine List.mem_map.mpr ⟨spec, hmem, ?_⟩
      exact of_decide_eq_true hname
    exact List.elem_eq_true_of_mem this
  · intro p ast ha hu
    simp [executePlannedStep, ha, hu]

/-- **C1, amended, witness.**  The conformant circle arguments are accepted;
an unknown tool name is rejected with the session unchanged. -/
theorem C1_amended_witness :
    toolNameKnown { action := some "tool_call",
                    toolName := some "add_circle_to_sketch",
                    toolArgs := goodCircleArgs, message := none,
                    description := none } = true ∧
    executePlannedStep { action := some "tool_call", toolName := some "make_cube",
                         toolArgs := [], message := none, description := none }
        initialAgentState =
      (⟨false, toolNotFoundMsg { action := some "tool_call",
                                 toolName := some "make_cube", toolArgs := [],
                                 message := none, description := none }⟩,
       initialAgentState, []) :=
  ⟨C1_amended.1 "add_circle_to_sketch" goodCircleArgs rfl,
   C1_amended.2.2 _ initialAgentState rfl rfl⟩

/-- A planner decision calling a tool that is not in the catalog. -/
def unknownToolPlan : PlanObj :=
  { action := some "tool_call", toolName := some "make_cube", toolArgs := [],
    message := none, description := some "make a cube" }

/-- **C2, counterexample.**  The claim says a tool_call decision with an
unknown tool name sends the loop back to PLANNING for the next iteration
and does not terminate the loop.  With a planner that always returns such a
decision, the run performs exactly **one** PLANNING cycle and stops (nine
budget units unused, no tool executed): the validation failure terminates
the loop like any failed step. -/
theorem C2_counterexample :
    (runAgent (fun _ _ => .ok unknownToolPlan) "a cube" initialAgentState).plannerCalls = 1 ∧
    (runAgent (fun _ _ => .ok unknownToolPlan) "a cube" initialAgentState).endedByFailure = true ∧
    (runAgent (fun _ _ => .ok unknownToolPlan) "a cube" initialAgentState).completedByPlanner = false ∧
    (runAgent (fun _ _ => .ok unknownToolPlan) "a cube" initialAgentState).steps =
      [⟨false, toolNotFoundMsg unknownToolPlan⟩] :=
  ⟨rfl, rfl, rfl, rfl⟩

/-- **C2, amended.**  When the first planner decision has action tool_call
but an unknown tool name, the loop appends a validation-failure record
(the not-found output) to the accumulated history and then **terminates**
after that iteration — the validation failure is treated like any failed
step; the loop does not return to PLANNING, and the session state is
unchanged with no collaborator call made. -/
theorem C2_amended
    (plan : String → AgentState × List CadCall → Except String PlanObj)
    (desc : String) (ast : AgentState) (p : PlanObj)
    (hp : plan ("User wants to create: " ++ desc) (ast, []) = .ok p)
    (ha : p.action = some "tool_call")
    (hu : toolNameKnown p = false) :
    runAgent plan desc ast =
      { message := maxStepsMessage, plannerCalls := 1,
        steps := [⟨false, toolNotFoundMsg p⟩], completedByPlanner := false,
        endedByFailure := true, raised := none,
        history := ("User wants to create: " ++ desc) ++ "\n\nStep " ++
          toString (1 : Nat) ++ ": " ++ p.description.getD "Unknown action" ++
          "\nResult: " ++ toolNotFoundMsg p,
        finalState := (ast, []) } := by
  have hstep : execStepTraced p (ast, []) = (⟨false, toolNotFoundMsg p⟩, (ast, [])) := by
    simp [execStepTraced, executePlannedStep, ha, hu]
  have hc : p.action ≠ some "complete" := by
    rw [ha]; decide
  have h := agenticWorkflow_first_fail plan execStepTraced desc (ast, []) p hp hc
    (by rw [hstep])
  rw [runAgent, h, hstep]

/-- **C2, amended, witness.** -/
theorem C2_amended_witness :
    runAgent (fun _ _ => .ok unknownToolPlan) "a cube" initialAgentState =
      { message := maxStepsMessage, plannerCalls := 1,
        steps := [⟨false, toolNotFoundMsg unknownToolPlan⟩],
        completedByPlanner := false, endedByFailure := true, raised := none,
        history := ("User wants to create: " ++ "a cube") ++ "\n\nStep " ++
          toString (1 : Nat) ++ ": " ++
          unknownToolPlan.description.getD "Unknown action" ++
          "\nResult: " ++ toolNotFoundMsg unknownToolPlan,
        finalState := (initialAgentState, []) } :=
  C2_amended (fun _ _ => .ok unknownToolPlan) "a cube" initialAgentState
    unknownToolPlan rfl rfl rfl

/-- **C3.**  The agent loop never exceeds the configured budget of 10: in
every run at most 10 PLANNING cycles and at most 10 executed steps occur
(an 11th cycle never begins); and when the planner never issues a
`complete` decision while every executed step succeeds, the run performs
exactly 10 cycles and terminates with the maximum-steps message — not by
failure and not by a planner completion. -/
theorem C3_step_budget {σ : Type} :
    (∀ (plan : String → σ → Except String PlanObj)
        (exec : PlanObj → σ → StepResult × σ) (desc : String) (st : σ),
      (agenticWorkflow plan exec desc st).plannerCalls ≤ max_steps ∧
      (agenticWorkflow plan exec desc st).steps.length ≤ max_steps) ∧
    (∀ (plan : String → σ → Except String PlanObj)
        (exec : PlanObj → σ → StepResult × σ) (desc : String) (st : σ),
      (∀ ctx s, ∃ p, plan ctx s = .ok p ∧ p.action ≠ some "complete") →
      (∀ p s, (exec p s).1.success = true) →
      (agenticWorkflow plan exec desc st).plannerCalls = max_steps ∧
      (agenticWorkflow plan exec desc st).message = maxStepsMessage ∧
      (agenticWorkflow plan exec desc st).completedByPlanner = false ∧
      (agenticWorkflow plan exec desc st).endedByFailure = false) := by
  constructor
  · intro plan exec desc st
    exact loopAux_bounds plan exec max_steps 0 _ st
  · intro plan exec desc st hplan hexec
    obtain ⟨h1, h2, h3, h4, -⟩ := loopAux_saturates plan exec hplan hexec max_steps 0 _ st
    exact ⟨h1, h2, h3, h4⟩

/-- A planner decision naming a harmless known tool. -/
def alwaysToolPlan : PlanObj :=
  { action := some "tool_call", toolName := some "get_planes", toolArgs := [],
    message := none, description := some "list planes" }

/-- **C3, witness.**  A planner that never completes over an
always-succeeding executor runs for exactly 10 cycles and ends with the
maximum-steps message. -/
theorem C3_step_budget_witness :
    (agenticWorkflow (σ := Unit) (fun _ _ => .ok alwaysToolPlan)
        (fun _ _ => (⟨true, "ok"⟩, ())) "a cube" ()).plannerCalls = max_steps ∧
    (agenticWorkflow (σ := Unit) (fun _ _ => .ok alwaysToolPlan)
        (fun _ _ => (⟨true, "ok"⟩, ())) "a cube" ()).message = maxStepsMessage ∧
    (agenticWorkflow (σ := Unit) (fun _ _ => .ok alwaysToolPlan)
        (fun _ _ => (⟨true, "ok"⟩, ())) "a cube" ()).completedByPlanner = false ∧
    (agenticWorkflow (σ := Unit) (fun _ _ => .ok alwaysToolPlan)
        (fun _ _ => (⟨true, "ok"⟩, ())) "a cube" ()).endedByFailure = false :=
  (C3_step_budget (σ := Unit)).2 (fun _ _ => .ok alwaysToolPlan)
    (fun _ _ => (⟨true, "ok"⟩, ())) "a cube" ()
    (fun _ _ => ⟨alwaysToolPlan, rfl, by decide⟩) (fun _ _ => rfl)

/-- **C4.**  A failed step stops the loop immediately: in every run, any
executor result reporting success=false is the **last** executor call of
the run (so the failed operation is never retried and no further Operation
Executor call occurs), and a run containing a failure ended in the failure
terminal state, not by a planner `complete`. -/
theorem C4_fail_stops {σ : Type} (plan : String → σ → Except String PlanObj)
    (exec : PlanObj → σ → StepResult × σ) (desc : String) (st : σ) :
    (∀ (i : Nat) (h : i < (agenticWorkflow plan exec desc st).steps.length),
      ((agenticWorkflow plan exec desc st).steps.get ⟨i, h⟩).success = false →
        i + 1 = (agenticWorkflow plan exec desc st).steps.length) ∧
    ((∃ r ∈ (agenticWorkflow plan exec desc st).steps, r.success = false) →
      (agenticWorkflow plan exec desc st).endedByFailure = true ∧
      (agenticWorkflow plan exec desc st).completedByPlanner = false) := by
  obtain ⟨h1, h2⟩ := loopAux_fail_is_last plan exec max_steps 0 _ st
  exact ⟨stepsFailLast _ h1, h2⟩

/-- **C4, witness.**  In a run whose first step fails, that step is the
last executor call and the run ends in failure. -/
theorem C4_fail_stops_witness :
    (0 : Nat) + 1 = (agenticWorkflow (σ := Unit) (fun _ _ => .ok alwaysToolPlan)
        (fun _ _ => (⟨false, "boom"⟩, ())) "a cube" ()).steps.length ∧
    (agenticWorkflow (σ := Unit) (fun _ _ => .ok alwaysToolPlan)
        (fun _ _ => (⟨false, "boom"⟩, ())) "a cube" ()).endedByFailure = true := by
  have h := C4_fail_stops (σ := Unit) (fun _ _ => .ok alwaysToolPlan)
    (fun _ _ => (⟨false, "boom"⟩, ())) "a cube" ()
  exact ⟨h.1 0 (by decide) (by decide),
    (h.2 ⟨⟨false, "boom"⟩, by decide, rfl⟩).1⟩

theorem lastIndexOf_eq_none (c : Char) :
    ∀ (l : List Char), lastIndexOf? c l = none → ∀ x ∈ l, x ≠ c := by
  intro l
  induction l with
  | nil => intro _ x hx; cases hx
  | cons a as ih =>
    intro h x hx
    simp only [lastIndexOf?] at h
    cases hla : lastIndexOf? c as with
    | some j => rw [hla] at h; cases h
    | none =>
      rw [hla] at h
      by_cases hac : a = c
      · rw [if_pos hac] at h; cases h
      · rw [if_neg hac] at h
        rcases List.mem_cons.mp hx with rfl | hx2
        · exact hac
        · exact ih hla x hx2

theorem lastIndexOf_spec (c : Char) :
    ∀ (l : List Char) (j : Nat), lastIndexOf? c l = some j →
      ∃ l1 l2, l = l1 ++ c :: l2 ∧ l1.length = j ∧ ∀ x ∈ l2, x ≠ c := by
  intro l
  induction l with
  | nil => intro j h; cases h
  | cons a as ih =>
    intro j h
    simp only [lastIndexOf?] at h
    cases hla : lastIndexOf? c as with
    | some j2 =>
      rw [hla] at h
      injection h with h
      obtain ⟨l1, l2, heq, hlen, hnc⟩ := ih j2 hla
      exact ⟨a :: l1, l2, by rw [heq]; rfl, by simp [hlen, ← h], hnc⟩
    | none =>
      rw [hla] at h
      by_cases hac : a = c
      · rw [if_pos hac] at h
        injection h with h
        exact ⟨[], as, by simp [hac], by simp [← h], lastIndexOf_eq_none c as hla⟩
      · rw [if_neg hac] at h; cases h

theorem take_append_one (c : Char) : ∀ (l1 l2 : List Char),
    (l1 ++ c :: l2).take (l1.length + 1) = l1 ++ [c] := by
  intro l1 l2
  induction l1 with
  | nil => rfl
  | cons a l ih => simpa using ih

theorem braceSpan_spec : ∀ (s t : List Char), braceSpan s = some t →
    ∃ pre mid post, s = pre ++ t ++ post ∧
      t = openBraceChar :: mid ++ [closeBraceChar] ∧
      (∀ x ∈ pre, x ≠ openBraceChar) ∧
      (∀ x ∈ post, x ≠ closeBraceChar) := by
  intro s
  induction s with
  | nil => intro t h; cases h
  | cons a as ih =>
    intro t h
    simp only [braceSpan] at h
    by_cases hab : a = openBraceChar
    · rw [if_pos hab] at h
      cases hli : lastIndexOf? closeBraceChar as with
      | some j =>
        rw [hli] at h
        injection h with h
        obtain ⟨l1, l2, heq, hlen, hnc⟩ := lastIndexOf_spec _ as j hli
        refine ⟨[], l1, l2, ?_, ?_, by simp, hnc⟩
        · rw [← h, heq, hab]
          simp only [List.nil_append, List.cons_append]
          congr 1
          rw [← hlen, take_append_one]
          simp
        · rw [← h, hab, heq, ← hlen, take_append_one]
          rfl
      | none =>
        rw [hli] at h
        obtain ⟨pre, mid, post, heq, ht, hpre, hpost⟩ := ih t h
        exfalso
        have hmem : closeBraceChar ∈ as := by
          rw [heq, ht]
          simp
        exact lastIndexOf_eq_none _ as hli _ hmem rfl
    · rw [if_neg hab] at h
      obtain ⟨pre, mid, post, heq, ht, hpre, hpost⟩ := ih t h
      refine ⟨a :: pre, mid, post, by rw [heq]; rfl, ht, ?_, hpost⟩
      intro x hx
      rcases List.mem_cons.mp hx with rfl | hx2
      · exact hab
      · exact hpre x hx2

/-- A model response containing two disjoint JSON objects. -/
def twoObjResponse : String :=
  "Here: \x7b\"a\": 1\x7d and \x7b\"b\": 2\x7d done"

/-- **C5, counterexample.**  The claim says the planner locates the first
balanced JSON object by a non-greedy matching-brace scan and parses exactly
the first of two disjoint objects.  At this explicit response the code's
greedy regex span runs from the first opening brace to the **last** closing
brace, covering both objects; it differs from the first balanced object,
its parse fails with `Extra data`, and the decision degrades to `complete`
with a `Planning failed` diagnostic — the first object alone is never
parsed. -/
theorem C5_counterexample :
    extractJsonStr twoObjResponse =
      some "\x7b\"a\": 1\x7d and \x7b\"b\": 2\x7d" ∧
    firstBalancedStr twoObjResponse = some "\x7b\"a\": 1\x7d" ∧
    extractJsonStr twoObjResponse ≠ firstBalancedStr twoObjResponse ∧
    (plan_next_step twoObjResponse).action = some "complete" ∧
    (plan_next_step twoObjResponse).message =
      some "Planning failed: Extra data" :=
  ⟨rfl, rfl, by decide, rfl, rfl⟩

/-- **C5, amended.**  For every raw response, the planner locates the
**greedy** brace span — it starts at an opening brace with no opening brace
anywhere before it, and ends at the final closing brace of the text, with no
closing brace after it — and parses only that substring; whenever parsing
that substring fails (as it does when the response contains two disjoint
JSON objects, because the span covers both), the planner degrades to a
`complete` decision carrying the `Planning failed` diagnostic. -/
theorem C5_amended :
    (∀ (s t : List Char), braceSpan s = some t →
      ∃ pre mid post, s = pre ++ t ++ post ∧
        t = openBraceChar :: mid ++ [closeBraceChar] ∧
        (∀ x ∈ pre, x ≠ openBraceChar) ∧
        (∀ x ∈ post, x ≠ closeBraceChar)) ∧
    (∀ (s jstr : String) (e : String), extractJsonStr s = some jstr →
      jsonLoads jstr = .error e → plan_next_step s = planningFailed e) := by
  refine ⟨braceSpan_spec, ?_⟩
  intro s jstr e hx hl
  rw [plan_next_step, hx]
  simp only [hl]

/-- **C5, amended, witness.**  At the two-object response, the extracted
span decomposes as the characterization states, and the planner degrades to
the `Planning failed` complete decision. -/
theorem C5_amended_witness :
    (∃ pre mid post,
      twoObjResponse.toList =
        pre ++ ("\x7b\"a\": 1\x7d and \x7b\"b\": 2\x7d").toList ++ post ∧
      ("\x7b\"a\": 1\x7d and \x7b\"b\": 2\x7d").toList =
        openBraceChar :: mid ++ [closeBraceChar] ∧
      (∀ x ∈ pre, x ≠ openBraceChar) ∧
      (∀ x ∈ post, x ≠ closeBraceChar)) ∧
    plan_next_step twoObjResponse = planningFailed "Extra data" :=
  ⟨C5_amended.1 twoObjResponse.toList
      ("\x7b\"a\": 1\x7d and \x7b\"b\": 2\x7d").toList rfl,
   C5_amended.2 twoObjResponse "\x7b\"a\": 1\x7d and \x7b\"b\": 2\x7d"
      "Extra data" rfl rfl⟩

/-- A parsed decision with no `action` field at all. -/
def noActionPlan : PlanObj :=
  { action := none, toolName := none, toolArgs := [], message := none,
    description := none }

/-- **C6, counterexample.**  The claim says a decision whose `action` is
absent or unrecognized is treated as a `complete` decision and terminates
the run in DONE.  With a planner that returns a decision with no `action`
field, the run does **not** end by a planner completion: the decision is
executed as a step, fails with `Invalid action type`, and the loop stops on
that failed step. -/
theorem C6_counterexample :
    (runAgent (fun _ _ => .ok noActionPlan) "a cube" initialAgentState).completedByPlanner = false ∧
    (runAgent (fun _ _ => .ok noActionPlan) "a cube" initialAgentState).endedByFailure = true ∧
    (runAgent (fun _ _ => .ok noActionPlan) "a cube" initialAgentState).steps =
      [⟨false, "Invalid action type"⟩] :=
  ⟨rfl, rfl, rfl⟩

/-- **C6, amended.**  A parsed decision whose `action` is absent or set to
any value other than `tool_call` or `complete` is treated as a **failed
execution step**: `_execute_planned_step` returns success=false with output
`Invalid action type` (touching nothing), and the loop records that failed
step and stops, exactly as for any other failed step — it is not treated as
a `complete` decision. -/
theorem C6_amended :
    (∀ (p : PlanObj) (ast : AgentState), p.action ≠ some "tool_call" →
      executePlannedStep p ast = (⟨false, "Invalid action type"⟩, ast, [])) ∧
    (∀ (plan : String → AgentState × List CadCall → Except String PlanObj)
        (desc : String) (ast : AgentState) (p : PlanObj),
      plan ("User wants to create: " ++ desc) (ast, []) = .ok p →
      p.action ≠ some "complete" → p.action ≠ some "tool_call" →
      runAgent plan desc ast =
        { message := maxStepsMessage, plannerCalls := 1,
          steps := [⟨false, "Invalid action type"⟩], completedByPlanner := false,
          endedByFailure := true, raised := none,
          history := ("User wants to create: " ++ desc) ++ "\n\nStep " ++
            toString (1 : Nat) ++ ": " ++ p.description.getD "Unknown action" ++
            "\nResult: " ++ "Invalid action type",
          finalState := (ast, []) }) := by
  have hstep : ∀ (p : PlanObj) (ast : AgentState), p.action ≠ some "tool_call" →
      executePlannedStep p ast = (⟨false, "Invalid action type"⟩, ast, []) := by
    intro p ast h
    unfold executePlannedStep
    rw [if_pos h]
  refine ⟨hstep, ?_⟩
  intro plan desc ast p hp hcomp htool
  have htr : execStepTraced p (ast, []) =
      (⟨false, "Invalid action type"⟩, (ast, [])) := by
    simp [execStepTraced, hstep p ast htool]
  have h := agenticWorkflow_first_fail plan execStepTraced desc (ast, []) p hp
    hcomp (by rw [htr])
  rw [runAgent, h, htr]

/-- **C6, amended, witness.** -/
theorem C6_amended_witness :
    executePlannedStep noActionPlan initialAgentState =
      (⟨false, "Invalid action type"⟩, initialAgentState, []) ∧
    runAgent (fun _ _ => .ok noActionPlan) "a cube" initialAgentState =
      { message := maxStepsMessage, plannerCalls := 1,
        steps := [⟨false, "Invalid action type"⟩], completedByPlanner := false,
        endedByFailure := true, raised := none,
        history := ("User wants to create: " ++ "a cube") ++ "\n\nStep " ++
          toString (1 : Nat) ++ ": " ++ noActionPlan.description.getD "Unknown action" ++
          "\nResult: " ++ "Invalid action type",
        finalState := (initialAgentState, []) } :=
  ⟨C6_amended.1 noActionPlan initialAgentState (by decide),
   C6_amended.2 (fun _ _ => .ok noActionPlan) "a cube" initialAgentState
     noActionPlan rfl (by decide) (by decide)⟩

theorem exceptBind_ok {E A B : Type} (x : A) (g : A → Except E B) :
    Except.ok (ε := E) x >>= g = g x := rfl

theorem exceptBind_error {E A B : Type} (msg : E) (g : A → Except E B) :
    Except.error (α := A) msg >>= g = Except.error (α := B) msg := rfl

/-- A tool_call decision as `_execute_planned_step` receives it. -/
def mkToolCall (n : String) (args : List (String × PyVal)) : PlanObj :=
  { action := some "tool_call", toolName := some n, toolArgs := args,
    message := none, description := none }

/-- The step output produced when a geometry operation hits an unregistered
sketch: the client's not-found message, wrapped by `_execute_tool_call` and
then by `_execute_planned_step`. -/
def geomFailMsg (opName name : String) (cst : ClientState) : String :=
  "Failed to execute " ++ opName ++ ": " ++
    ("Error executing " ++ opName ++ ": " ++ sketchNotFoundMsg name cst)

/-- **C7.**  For each of the five geometry-adding operations, an
unregistered `sketch_name` makes the client operation fail with the
not-found error naming the missing sketch, before any collaborator call
(the error return carries no state change and an empty call list); at the
agent level the step comes back as a failed `StepResult` with the wrapped
not-found output, the session exactly unchanged and no collaborator call
(`add_circle`/`add_rectangle` additionally require the part-studio ref to
be set, since `_execute_tool_call` checks that first for them); and a run
whose first step fails this way terminates immediately in the failure
state with the state it started from. -/
theorem C7_unknown_sketch :
    (∀ (st : ClientState) (name : String) (c r : PyVal),
      st.sketches.contains name = false →
        add_circle_to_sketch st name c r = .error (sketchNotFoundMsg name st)) ∧
    (∀ (st : ClientState) (name : String) (c1 c2 : PyVal),
      st.sketches.contains name = false →
        add_rectangle_to_sketch st name c1 c2 = .error (sketchNotFoundMsg name st)) ∧
    (∀ (st : ClientState) (name : String) (sp ep : PyVal),
      st.sketches.contains name = false →
        add_line_to_sketch st name sp ep = .error (sketchNotFoundMsg name st)) ∧
    (∀ (st : ClientState) (name : String) (cp r sa ea : PyVal),
      st.sketches.contains name = false →
        add_arc_to_sketch st name cp r sa ea = .error (sketchNotFoundMsg name st)) ∧
    (∀ (st : ClientState) (name : String) (pts : PyVal) (ec : Bool),
      st.sketches.contains name = false →
        trace_points_in_sketch st name pts ec = .error (sketchNotFoundMsg name st)) ∧
    (∀ (ast : AgentState) (args : List (String × PyVal)) (name : String)
        (cv rv : PyVal),
      ast.currentPartStudio ≠ none →
      args.lookup "sketch_name" = some (.vStr name) →
      args.lookup "center" = some cv → args.lookup "radius" = some rv →
      ast.client.sketches.contains name = false →
        executePlannedStep (mkToolCall "add_circle_to_sketch" args) ast =
          (⟨false, geomFailMsg "add_circle_to_sketch" name ast.client⟩, ast, [])) ∧
    (∀ (ast : AgentState) (args : List (String × PyVal)) (name : String)
        (c1 c2 : PyVal),
      ast.currentPartStudio ≠ none →
      args.lookup "sketch_name" = some (.vStr name) →
      args.lookup "corner_1" = some c1 → args.lookup "corner_2" = some c2 →
      ast.client.sketches.contains name = false →
        executePlannedStep (mkToolCall "add_rectangle_to_sketch" args) ast =
          (⟨false, geomFailMsg "add_rectangle_to_sketch" name ast.client⟩, ast, [])) ∧
    (∀ (ast : AgentState) (args : List (String × PyVal)) (name : String)
        (sp ep : PyVal),
      args.lookup "sketch_name" = some (.vStr name) →
      args.lookup "start_point" = some sp → args.lookup "end_point" = some ep →
      ast.client.sketches.contains name = false →
        executePlannedStep (mkToolCall "add_line_to_sketch" args) ast =
          (⟨false, geomFailMsg "add_line_to_sketch" name ast.client⟩, ast, [])) ∧
    (∀ (ast : AgentState) (args : List (String × PyVal)) (name : String)
        (cp r sa ea : PyVal),
      args.lookup "sketch_name" = some (.vStr name) →
      args.lookup "centerpoint" = some cp → args.lookup "radius" = some r →
      args.lookup "start_angle" = some sa → args.lookup "end_angle" = some ea →
      ast.client.sketches.contains name = false →
        executePlannedStep (mkToolCall "add_arc_to_sketch" args) ast =
          (⟨false, geomFailMsg "add_arc_to_sketch" name ast.client⟩, ast, [])) ∧
    (∀ (ast : AgentState) (args : List (String × PyVal)) (name : String)
        (pv : PyVal),
      args.lookup "sketch_name" = some (.vStr name) →
      args.lookup "points" = some pv →
      ast.client.sketches.contains name = false →
        executePlannedStep (mkToolCall "trace_points_in_sketch" args) ast =
          (⟨false, geomFailMsg "trace_points_in_sketch" name ast.client⟩, ast, [])) ∧
    (∀ (plan : String → AgentState × List CadCall → Except String PlanObj)
        (desc : String) (ast : AgentState) (p : PlanObj) (r : StepResult),
      plan ("User wants to create: " ++ desc) (ast, []) = .ok p →
      p.action ≠ some "complete" →
      executePlannedStep p ast = (r, ast, []) → r.success = false →
        runAgent plan desc ast =
          { message := maxStepsMessage, plannerCalls := 1, steps := [r],
            completedByPlanner := false, endedByFailure := true, raised := none,
            history := ("User wants to create: " ++ desc) ++ "\n\nStep " ++
              toString (1 : Nat) ++ ": " ++ p.description.getD "Unknown action" ++
              "\nResult: " ++ r.output,
            finalState := (ast, []) }) := by
  refine ⟨?_, ?_, ?_, ?_, ?_, ?_, ?_, ?_, ?_, ?_, ?_⟩
  · intro st name c r h
    have hmem : name ∉ st.sketches := by simpa using h
    simp [add_circle_to_sketch, hmem]
  · intro st name c1 c2 h
    have hmem : name ∉ st.sketches := by simpa using h
    simp [add_rectangle_to_sketch, hmem]
  · intro st name sp ep h
    have hmem : name ∉ st.sketches := by simpa using h
    simp [add_line_to_sketch, hmem]
  · intro st name cp r sa ea h
    have hmem : name ∉ st.sketches := by simpa using h
    simp [add_arc_to_sketch, hmem]
  · intro st name pts ec h
    have hmem : name ∉ st.sketches := by simpa using h
    simp [trace_points_in_sketch, hmem]
  · intro ast args name cv rv hps hsk hc hr hunk
    have hmem : name ∉ ast.client.sketches := by simpa using hunk
    unfold executePlannedStep
    rw [if_neg (by simp [mkToolCall])]
    rw [if_neg (by simp [mkToolCall, toolNameKnown, toolNameStr, availableToolNames, tools])]
    have hd : execute_tool_call (toolNameStr (mkToolCall "add_circle_to_sketch" args))
        (mkToolCall "add_circle_to_sketch" args).toolArgs ast =
        .error ("Error executing add_circle_to_sketch: " ++ sketchNotFoundMsg name ast.client) := by
      show execute_tool_call "add_circle_to_sketch" args ast = _
      unfold execute_tool_call dispatchToolCall
      simp [getItem, hsk, hc, hr, asStr, add_circle_to_sketch, hps, hmem,
        exceptBind_ok, exceptBind_error, sketchNotFoundMsg]
    rw [hd]
    simp [geomFailMsg, mkToolCall, toolNameStr]
  · intro ast args name c1 c2 hps hsk hc1 hc2 hunk
    have hmem : name ∉ ast.client.sketches := by simpa using hunk
    unfold executePlannedStep
    rw [if_neg (by simp [mkToolCall])]
    rw [if_neg (by simp [mkToolCall, toolNameKnown, toolNameStr, availableToolNames, tools])]
    have hd : execute_tool_call (toolNameStr (mkToolCall "add_rectangle_to_sketch" args))
        (mkToolCall "add_rectangle_to_sketch" args).toolArgs ast =
        .error ("Error executing add_rectangle_to_sketch: " ++ sketchNotFoundMsg name ast.client) := by
      show execute_tool_call "add_rectangle_to_sketch" args ast = _
      unfold execute_tool_call dispatchToolCall
      simp [getItem, hsk, hc1, hc2, asStr, add_rectangle_to_sketch, hps, hmem,
        exceptBind_ok, exceptBind_error, sketchNotFoundMsg]
    rw [hd]
    simp [geomFailMsg, mkToolCall, toolNameStr]
  · intro ast args name sp ep hsk hsp hep hunk
    have hmem : name ∉ ast.client.sketches := by simpa using hunk
    unfold executePlannedStep
    rw [if_neg (by simp [mkToolCall])]
    rw [if_neg (by simp [mkToolCall, toolNameKnown, toolNameStr, availableToolNames, tools])]
    have hd : execute_tool_call (toolNameStr (mkToolCall "add_line_to_sketch" args))
        (mkToolCall "add_line_to_sketch" args).toolArgs ast =
        .error ("Error executing add_line_to_sketch: " ++ sketchNotFoundMsg name ast.client) := by
      show execute_tool_call "add_line_to_sketch" args ast = _
      unfold execute_tool_call dispatchToolCall
      simp [getItem, hsk, hsp, hep, asStr, add_line_to_sketch, hmem,
        exceptBind_ok, exceptBind_error, sketchNotFoundMsg]
    rw [hd]
    simp [geomFailMsg, mkToolCall, toolNameStr]
  · intro ast args name cp r sa ea hsk hcp hr hsa hea hunk
    have hmem : name ∉ ast.client.sketches := by simpa using hunk
    unfold executePlannedStep
    rw [if_neg (by simp [mkToolCall])]
    rw [if_neg (by simp [mkToolCall, toolNameKnown, toolNameStr, availableToolNames, tools])]
    have hd : execute_tool_call (toolNameStr (mkToolCall "add_arc_to_sketch" args))
        (mkToolCall "add_arc_to_sketch" args).toolArgs ast =
        .error ("Error executing add_arc_to_sketch: " ++ sketchNotFoundMsg name ast.client) := by
      show execute_tool_call "add_arc_to_sketch" args ast = _
      unfold execute_tool_call dispatchToolCall
      simp [getItem, hsk, hcp, hr, hsa, hea, asStr, add_arc_to_sketch, hmem,
        exceptBind_ok, exceptBind_error, sketchNotFoundMsg]
    rw [hd]
    simp [geomFailMsg, mkToolCall, toolNameStr]
  · intro ast args name pv hsk hpv hunk
    have hmem : name ∉ ast.client.sketches := by simpa using hunk
    unfold executePlannedStep
    rw [if_neg (by simp [mkToolCall])]
    rw [if_neg (by simp [mkToolCall, toolNameKnown, toolNameStr, availableToolNames, tools])]
    have hd : execute_tool_call (toolNameStr (mkToolCall "trace_points_in_sketch" args))
        (mkToolCall "trace_points_in_sketch" args).toolArgs ast =
        .error ("Error executing trace_points_in_sketch: " ++ sketchNotFoundMsg name ast.client) := by
      show execute_tool_call "trace_points_in_sketch" args ast = _
      unfold execute_tool_call dispatchToolCall
      simp [getItem, hsk, hpv, asStr, trace_points_in_sketch, hmem,
        exceptBind_ok, exceptBind_error, sketchNotFoundMsg]
    rw [hd]
    simp [geomFailMsg, mkToolCall, toolNameStr]
  · intro plan desc ast p r hp hcomp hstep hfail
    have htr : execStepTraced p (ast, []) = (r, (ast, [])) := by
      simp [execStepTraced, hstep]
    have h := agenticWorkflow_first_fail plan execStepTraced desc (ast, []) p hp
      hcomp (by rw [htr]; exact hfail)
    rw [runAgent, h, htr]

/-- Line arguments referencing the unregistered sketch `"Ghost"`. -/
def ghostLineArgs : List (String × PyVal) :=
  [("sketch_name", .vStr "Ghost"),
   ("start_point", .vList [.vNum 0, .vNum 0]),
   ("end_point", .vList [.vNum 1, .vNum 1])]

/-- **C7, witness.**  Against a session whose only sketch is
`"Base Sketch"`, a circle for `"Ghost"` fails with the not-found error, the
line step fails with the wrapped output and no state change or collaborator
call, and the run containing it stops at once in the failure state. -/
theorem C7_unknown_sketch_witness :
    add_circle_to_sketch stWithSketch.client "Ghost"
        (.vList [.vNum 0, .vNum 0]) (.vNum 5) =
      .error (sketchNotFoundMsg "Ghost" stWithSketch.client) ∧
    executePlannedStep (mkToolCall "add_line_to_sketch" ghostLineArgs) stWithSketch =
      (⟨false, geomFailMsg "add_line_to_sketch" "Ghost" stWithSketch.client⟩,
       stWithSketch, []) ∧
    runAgent (fun _ _ => .ok (mkToolCall "add_line_to_sketch" ghostLineArgs))
        "a line" stWithSketch =
      { message := maxStepsMessage, plannerCalls := 1,
        steps := [⟨false, geomFailMsg "add_line_to_sketch" "Ghost" stWithSketch.client⟩],
        completedByPlanner := false, endedByFailure := true, raised := none,
        history := ("User wants to create: " ++ "a line") ++ "\n\nStep " ++
          toString (1 : Nat) ++ ": " ++
          (mkToolCall "add_line_to_sketch" ghostLineArgs).description.getD "Unknown action" ++
          "\nResult: " ++
          geomFailMsg "add_line_to_sketch" "Ghost" stWithSketch.client,
        finalState := (stWithSketch, []) } := by
  refine ⟨C7_unknown_sketch.1 stWithSketch.client "Ghost" _ _ rfl, ?_, ?_⟩
  · exact C7_unknown_sketch.2.2.2.2.2.2.2.1 stWithSketch ghostLineArgs "Ghost"
      _ _ rfl rfl rfl rfl
  · exact C7_unknown_sketch.2.2.2.2.2.2.2.2.2.2
      (fun _ _ => .ok (mkToolCall "add_line_to_sketch" ghostLineArgs))
      "a line" stWithSketch (mkToolCall "add_line_to_sketch" ghostLineArgs)
      ⟨false, geomFailMsg "add_line_to_sketch" "Ghost" stWithSketch.client⟩
      rfl (by decide) rfl rfl

theorem lookup_updateFeature (name : String) (f : FeatureInfo → FeatureInfo) :
    ∀ (fs : List (String × FeatureInfo)),
      (updateFeature fs name f).lookup name = (fs.lookup name).map f := by
  intro fs
  induction fs with
  | nil => rfl
  | cons a fs ih =>
    cases a with
    | mk k v =>
      by_cases h : k = name
      · subst h
        simp only [updateFeature, List.map_cons]
        simp [List.lookup, beq_self_eq_true]
      · have hne : (name == k) = false :=
          beq_eq_false_iff_ne.mpr (fun he => h he.symm)
        simp only [updateFeature, List.map_cons]
        rw [if_neg (by simpa using h)]
        simp [List.lookup, hne]
        simpa [updateFeature] using ih

/-- **C8, amended.**  Once geometry is added to a registered sketch,
`geometry_kind` is set and never removed (every update stores a value), but
the value evolves as the code computes it, not per distinct kinds:
`add_circle`/`add_rectangle` **overwrite** it with `"circle"`/`"rectangle"`
whatever was recorded before, while `add_line`/`add_arc`/`trace_points`
record `"line"`/`"arc"`/`"polyline"` when no kind is recorded yet and
otherwise set `"mixed"` — even when the kind being added equals the one
already recorded. -/
theorem C8_amended :
    (∀ (st : ClientState) (name plane : String) (hg : Bool) (g : Option String)
        (center radius : PyVal) (st1 : ClientState) (cs : List CadCall),
      st.features.lookup name = some (.sketch plane hg g) →
      add_circle_to_sketch st name center radius = .ok (st1, cs) →
        st1.features.lookup name = some (.sketch plane true (some "circle"))) ∧
    (∀ (st : ClientState) (name plane : String) (hg : Bool) (g : Option String)
        (c1 c2 : PyVal) (st1 : ClientState) (cs : List CadCall),
      st.features.lookup name = some (.sketch plane hg g) →
      add_rectangle_to_sketch st name c1 c2 = .ok (st1, cs) →
        st1.features.lookup name = some (.sketch plane true (some "rectangle"))) ∧
    (∀ (st : ClientState) (name plane : String) (hg : Bool) (g : Option String)
        (sp ep : PyVal) (st1 : ClientState) (cs : List CadCall),
      st.features.lookup name = some (.sketch plane hg g) →
      add_line_to_sketch st name sp ep = .ok (st1, cs) →
        st1.features.lookup name = some (.sketch plane true
          (some (match g with | none => "line" | some _ => "mixed")))) ∧
    (∀ (st : ClientState) (name plane : String) (hg : Bool) (g : Option String)
        (cp r sa ea : PyVal) (st1 : ClientState) (cs : List CadCall),
      st.features.lookup name = some (.sketch plane hg g) →
      add_arc_to_sketch st name cp r sa ea = .ok (st1, cs) →
        st1.features.lookup name = some (.sketch plane true
          (some (match g with | none => "arc" | some _ => "mixed")))) ∧
    (∀ (st : ClientState) (name plane : String) (hg : Bool) (g : Option String)
        (pts : PyVal) (ec : Bool) (st1 : ClientState) (cs : List CadCall),
      st.features.lookup name = some (.sketch plane hg g) →
      trace_points_in_sketch st name pts ec = .ok (st1, cs) →
        st1.features.lookup name = some (.sketch plane true
          (some (match g with | none => "polyline" | some _ => "mixed")))) := by
  refine ⟨?_, ?_, ?_, ?_, ?_⟩
  · intro st name plane hg g center radius st1 cs hf hok
    unfold add_circle_to_sketch at hok
    cases hc : st.sketches.contains name with
    | false => rw [hc] at hok; simp at hok
    | true =>
      rw [hc] at hok
      simp only [Bool.not_true, Bool.false_eq_true, if_false] at hok
      cases han : asNum radius with
      | error e => simp [han, exceptBind_error] at hok
      | ok rv =>
        cases hap : asPoint center with
        | error e => simp [han, hap, exceptBind_ok, exceptBind_error] at hok
        | ok cv =>
          simp only [han, hap, exceptBind_ok, Except.ok.injEq, Prod.mk.injEq] at hok
          obtain ⟨h1, -⟩ := hok
          rw [← h1]
          simp [lookup_updateFeature, hf]
  · intro st name plane hg g c1 c2 st1 cs hf hok
    unfold add_rectangle_to_sketch at hok
    cases hc : st.sketches.contains name with
    | false => rw [hc] at hok; simp at hok
    | true =>
      rw [hc] at hok
      simp only [Bool.not_true, Bool.false_eq_true, if_false] at hok
      cases ha1 : asPoint c1 with
      | error e => simp [ha1, exceptBind_error] at hok
      | ok v1 =>
        cases ha2 : asPoint c2 with
        | error e => simp [ha1, ha2, exceptBind_ok, exceptBind_error] at hok
        | ok v2 =>
          simp only [ha1, ha2, exceptBind_ok, Except.ok.injEq, Prod.mk.injEq] at hok
          obtain ⟨h1, -⟩ := hok
          rw [← h1]
          simp [lookup_updateFeature, hf]
  · intro st name plane hg g sp ep st1 cs hf hok
    unfold add_line_to_sketch at hok
    cases hc : st.sketches.contains name with
    | false => rw [hc] at hok; simp at hok
    | true =>
      rw [hc] at hok
      simp only [Bool.not_true, Bool.false_eq_true, if_false] at hok
      cases ha1 : asPoint sp with
      | error e => simp [ha1, exceptBind_error] at hok
      | ok v1 =>
        cases ha2 : asPoint ep with
        | error e => simp [ha1, ha2, exceptBind_ok, exceptBind_error] at hok
        | ok v2 =>
          simp only [ha1, ha2, exceptBind_ok, Except.ok.injEq, Prod.mk.injEq] at hok
          obtain ⟨h1, -⟩ := hok
          rw [← h1]
          cases g with
          | none => simp [lookup_updateFeature, hf]
          | some k => simp [lookup_updateFeature, hf]
  · intro st name plane hg g cp r sa ea st1 cs hf hok
    unfold add_arc_to_sketch at hok
    cases hc : st.sketches.contains name with
    | false => rw [hc] at hok; simp at hok
    | true =>
      rw [hc] at hok
      simp only [Bool.not_true, Bool.false_eq_true, if_false] at hok
      cases ha1 : asPoint cp with
      | error e => simp [ha1, exceptBind_error] at hok
      | ok v1 =>
        cases ha2 : asNum r with
        | error e => simp [ha1, ha2, exceptBind_ok, exceptBind_error] at hok
        | ok v2 =>
          cases ha3 : asNum sa with
          | error e => simp [ha1, ha2, ha3, exceptBind_ok, exceptBind_error] at hok
          | ok v3 =>
            cases ha4 : asNum ea with
            | error e => simp [ha1, ha2, ha3, ha4, exceptBind_ok, exceptBind_error] at hok
            | ok v4 =>
              simp only [ha1, ha2, ha3, ha4, exceptBind_ok, Except.ok.injEq,
                Prod.mk.injEq] at hok
              obtain ⟨h1, -⟩ := hok
              rw [← h1]
              cases g with
              | none => simp [lookup_updateFeature, hf]
              | some k => simp [lookup_updateFeature, hf]
  · intro st name plane hg g pts ec st1 cs hf hok
    unfold trace_points_in_sketch at hok
    cases hc : st.sketches.contains name with
    | false => rw [hc] at hok; simp at hok
    | true =>
      rw [hc] at hok
      simp only [Bool.not_true, Bool.false_eq_true, if_false] at hok
      cases ha1 : asPointList pts with
      | error e => simp [ha1, exceptBind_error] at hok
      | ok v1 =>
        simp only [ha1, exceptBind_ok, Except.ok.injEq, Prod.mk.injEq] at hok
        obtain ⟨h1, -⟩ := hok
        rw [← h1]
        cases g with
        | none => simp [lookup_updateFeature, hf]
        | some k => simp [lookup_updateFeature, hf]

/-- The client state after adding one line, then another line, to
`"Base Sketch"`. -/
def clientAfterTwoLines : Except String (ClientState × List CadCall) :=
  (add_line_to_sketch stWithSketch.client "Base Sketch"
      (.vList [.vNum 0, .vNum 0]) (.vList [.vNum 1, .vNum 1])).bind
    fun r => add_line_to_sketch r.1 "Base Sketch"
      (.vList [.vNum 1, .vNum 1]) (.vList [.vNum 2, .vNum 2])

/-- The client state after adding a circle and then a rectangle to
`"Base Sketch"`. -/
def clientAfterCircleRect : Except String (ClientState × List CadCall) :=
  (add_circle_to_sketch stWithSketch.client "Base Sketch"
      (.vList [.vNum 0, .vNum 0]) (.vNum 5)).bind
    fun r => add_rectangle_to_sketch r.1 "Base Sketch"
      (.vList [.vNum 0, .vNum 0]) (.vList [.vNum 2, .vNum 2])

/-- The `geometry_type` recorded for `name` after an operation chain. -/
def geomKindOf (r : Except String (ClientState × List CadCall))
    (name : String) : Option String :=
  match r with
  | .ok (st, _) =>
    match st.features.lookup name with
    | some (.sketch _ _ g) => g
    | _ => none
  | .error _ => none

/-- **C8, counterexample.**  The claim says `geometry_kind` equals
`"mixed"` exactly when more than one distinct kind has been added: two
additions of the same kind leave the single kind recorded, and two
different kinds (any pair) yield `"mixed"`.  At these explicit inputs the
code records `"mixed"` after two additions of the **same** kind (two
lines), and records plain `"rectangle"` — not `"mixed"` — after two
**different** kinds (circle then rectangle, because circle/rectangle
overwrite the recorded kind). -/
theorem C8_counterexample :
    geomKindOf clientAfterTwoLines "Base Sketch" = some "mixed" ∧
    geomKindOf clientAfterCircleRect "Base Sketch" = some "rectangle" ∧
    (some "mixed" : Option String) ≠ some "line" ∧
    (some "rectangle" : Option String) ≠ some "mixed" :=
  ⟨rfl, rfl, by decide, by decide⟩

/-- The result of adding one line to the session's empty sketch. -/
def oneLineRes : Except String (ClientState × List CadCall) :=
  add_line_to_sketch stWithSketch.client "Base Sketch"
    (.vList [.vNum 0, .vNum 0]) (.vList [.vNum 1, .vNum 1])

/-- The client state reached by `oneLineRes`. -/
def oneLineSt : ClientState :=
  match oneLineRes with
  | .ok (st, _) => st
  | .error _ => initialClientState

/-- The calls emitted by `oneLineRes`. -/
def oneLineCalls : List CadCall :=
  match oneLineRes with
  | .ok (_, cs) => cs
  | .error _ => []

/-- **C8, amended, witness.**  On the empty `"Base Sketch"`, a first line
records `"line"`; a second line then records `"mixed"` although the kind is
the same. -/
theorem C8_amended_witness :
    oneLineSt.features.lookup "Base Sketch" =
      some (.sketch "Top" true (some "line")) ∧
    (∀ (st2 : ClientState) (cs2 : List CadCall),
      add_line_to_sketch oneLineSt "Base Sketch"
          (.vList [.vNum 1, .vNum 1]) (.vList [.vNum 2, .vNum 2]) = .ok (st2, cs2) →
        st2.features.lookup "Base Sketch" =
          some (.sketch "Top" true (some "mixed"))) :=
  ⟨C8_amended.2.2.1 stWithSketch.client "Base Sketch" "Top" false none
      (.vList [.vNum 0, .vNum 0]) (.vList [.vNum 1, .vNum 1])
      oneLineSt oneLineCalls rfl rfl,
   fun st2 cs2 h => C8_amended.2.2.1 oneLineSt "Base Sketch" "Top" true
      (some "line") (.vList [.vNum 1, .vNum 1]) (.vList [.vNum 2, .vNum 2])
      st2 cs2 rfl h⟩

/-- The session `stWithSketch` rebuilt by the actual dispatch chain
`create_document → create_part_studio → create_sketch`. -/
def builtSession : Except String AgentState :=
  (dispatchToolCall "create_document" [("name", .vStr "Doc")]
      initialAgentState).bind fun r1 =>
  (dispatchToolCall "create_part_studio" [("name", .vStr "Main")] r1.1).bind fun r2 =>
  (dispatchToolCall "create_sketch"
      [("plane", .vStr "Top"), ("name", .vStr "Base Sketch")] r2.1).map (·.1)

/-- **C9, counterexample.**  The claim says that after `reset()` the
registry of named entities contains no entries.  Starting from a session
actually reached by the dispatch chain (one registered sketch),
`reset_session` clears the three refs but the client registry still lists
`"Base Sketch"`: a subsequent query sees the previously registered
entity. -/
theorem C9_counterexample :
    builtSession.toOption = some stWithSketch ∧
    (resetSession stWithSketch).currentDocument = none ∧
    (resetSession stWithSketch).currentWorkspace = none ∧
    (resetSession stWithSketch).currentPartStudio = none ∧
    get_available_sketches (resetSession stWithSketch).client = ["Base Sketch"] ∧
    (resetSession stWithSketch).client.features ≠ [] :=
  ⟨by decide, rfl, rfl, rfl, rfl, by decide⟩

/-- **C9, amended.**  `reset_session` clears exactly the document,
workspace and part-studio refs; the OnPy client and its entity registry are
untouched, so queries and the summary after a reset still see every
previously registered entity. -/
theorem C9_amended (ast : AgentState) :
    (resetSession ast).currentDocument = none ∧
    (resetSession ast).currentWorkspace = none ∧
    (resetSession ast).currentPartStudio = none ∧
    (resetSession ast).client = ast.client ∧
    get_available_sketches (resetSession ast).client =
      get_available_sketches ast.client ∧
    get_current_features_summary (resetSession ast).client =
      get_current_features_summary ast.client :=
  ⟨rfl, rfl, rfl, rfl, rfl, rfl⟩

/-- **C10, counterexample.**  The claim says that when the CAD collaborator
is unreachable at startup, agent construction aborts fatally.  The
implemented connection test returns `True` without consulting the
collaborator at all, so construction succeeds even in the unreachable
state. -/
theorem C10_counterexample :
    test_connection false = true ∧ initAgent false = .ok initialAgentState :=
  ⟨rfl, rfl⟩

/-- **C10, amended.**  Construction aborts only if the connection test
fails, and the implemented test always reports success, so construction
never aborts — collaborator unreachability surfaces only on the first real
operation; and once constructed, the part-creation entry point never
propagates an exception: when the workflow raises, the entry point returns
the wrapped `Error creating part:` string, and otherwise it returns the
workflow's final message — it always returns a string. -/
theorem C10_amended :
    (∀ (reachable : Bool), initAgent reachable = .ok initialAgentState) ∧
    (∀ {σ : Type} (plan : String → σ → Except String PlanObj)
        (exec : PlanObj → σ → StepResult × σ) (desc : String) (st : σ)
        (e : String),
      (agenticWorkflow plan exec desc st).raised = some e →
        createPartFromDescription plan exec desc st =
          "Error creating part: " ++ e) ∧
    (∀ {σ : Type} (plan : String → σ → Except String PlanObj)
        (exec : PlanObj → σ → StepResult × σ) (desc : String) (st : σ),
      (agenticWorkflow plan exec desc st).raised = none →
        createPartFromDescription plan exec desc st =
          (agenticWorkflow plan exec desc st).message) := by
  refine ⟨fun _ => rfl, ?_, ?_⟩
  · intro σ plan exec desc st e h
    unfold createPartFromDescription
    rw [h]
  · intro σ plan exec desc st h
    unfold createPartFromDescription
    rw [h]

/-- **C10, amended, witness.**  Construction succeeds in the unreachable
state, and a run whose language-model call raises returns the wrapped error
string. -/
theorem C10_amended_witness :
    initAgent false = .ok initialAgentState ∧
    createPartFromDescription (σ := Unit)
        (fun _ _ => .error "Groq API error: boom")
        (fun _ _ => (⟨true, "ok"⟩, ())) "a cube" () =
      "Error creating part: " ++ "Groq API error: boom" :=
  ⟨C10_amended.1 false,
   C10_amended.2.1 (fun _ _ => .error "Groq API error: boom")
     (fun _ _ => (⟨true, "ok"⟩, ())) "a cube" () "Groq API error: boom" rfl⟩

/-- **C9, amended, witness.**  Applying the amended statement to the
built session: refs cleared, registry intact. -/
theorem C9_amended_witness :
    (resetSession stWithSketch).currentDocument = none ∧
    (resetSession stWithSketch).currentWorkspace = none ∧
    (resetSession stWithSketch).currentPartStudio = none ∧
    (resetSession stWithSketch).client = stWithSketch.client ∧
    get_available_sketches (resetSession stWithSketch).client =
      get_available_sketches stWithSketch.client ∧
    get_current_features_summary (resetSession stWithSketch).client =
      get_current_features_summary stWithSketch.client :=
  C9_amended stWithSketch
